import Mathlib

/-!
# Verification of the endtoend TLS PQC scan service

This file gives a shallow embedding in Lean 4 of the parts of the
`scan-service` component (files `tls.py` and `crypto_audit.py`) that the
frozen claims C1 to C10 are about, and settles each claim against it.

Conventions of the embedding:
* Python strings are Lean `String`s; Python's substring test `p in s` is
  `substr p s` below, Python's `str.upper`/`str.lower` are `upperStr` /
  `lowerStr` (the algorithm names involved are ASCII).
* Python numbers appearing in the scoring pipeline are integer-valued
  (the score tables hold `int`s and every adjustment is an integral
  float), so base scores and adjustments are `ℤ`; quantities that are
  genuinely fractional (positional decay, averages) are `ℚ`.
  Python's `round(x, 2)` is `round2` below; Mathlib's `round` rounds
  half away from the floor while CPython on floats rounds half to even,
  but none of the concrete values settled here sit on an exact
  two-decimal tie, and the monotonicity facts used hold for both.
* Python dicts built by the code are association lists in insertion
  order (CPython guarantees insertion order, and the substring-fallback
  loop over table keys depends on it).
* `None`-able parameters are `Option`s; absent dict keys read through
  `dict.get(k, default)` are `Option` fields read through `getD`.
-/

/-! ## String utilities (Python `in`, `upper`, `lower`) -/

/-- Python's `str.upper` for the ASCII names handled by the analyzer. -/
def upperStr (s : String) : String := String.mk (s.data.map Char.toUpper)

/-- Python's `str.lower` for the ASCII strings handled by the service. -/
def lowerStr (s : String) : String := String.mk (s.data.map Char.toLower)

/-- Substring test on character lists: `p` occurs contiguously in `t`. -/
def listSubstr (p : List Char) : List Char → Bool
  | [] => p.isEmpty
  | c :: t => p.isPrefixOf (c :: t) || listSubstr p t

/-- Python's `needle in hay` on strings. -/
def substr (needle hay : String) : Bool := listSubstr needle.data hay.data

theorem listSubstr_iff (p t : List Char) : listSubstr p t = true ↔ p <:+: t := by
  induction t with
  | nil =>
    simp [listSubstr, List.isEmpty_iff, List.infix_nil]
  | cons c t ih =>
    simp only [listSubstr, Bool.or_eq_true, List.isPrefixOf_iff_prefix, ih,
      List.infix_cons_iff]

theorem substr_trans {a b c : String} (h1 : substr a b = true) (h2 : substr b c = true) :
    substr a c = true := by
  rw [substr, listSubstr_iff] at *
  exact h1.trans h2

theorem substr_upperStr {p s : String} (h : substr p s = true) :
    substr (upperStr p) (upperStr s) = true := by
  rw [substr, listSubstr_iff] at *
  exact h.map Char.toUpper

/-! ## Two-decimal rounding (Python `round(x, 2)` on the values at hand) -/

/-- `round(x, 2)`: round to two decimal places (written with the
executable `Rat.floor`). -/
def round2 (q : ℚ) : ℚ := (((q * 100 + 1/2).floor : ℤ) : ℚ) / 100

theorem rat_floor_eq_floor (q : ℚ) : q.floor = ⌊q⌋ := by
  rw [Rat.floor_def', Rat.floor_def]

theorem round2_eq_round (q : ℚ) : round2 q = ((round (q * 100) : ℤ) : ℚ) / 100 := by
  rw [round2, rat_floor_eq_floor, round_eq]

theorem round2_intCast (n : ℤ) : round2 ((n : ℚ)) = (n : ℚ) := by
  rw [round2_eq_round]
  rw [show ((n : ℚ) * 100) = (((n * 100 : ℤ) : ℤ) : ℚ) by push_cast; ring, round_intCast]
  push_cast
  ring

theorem round2_mono {a b : ℚ} (h : a ≤ b) : round2 a ≤ round2 b := by
  rw [round2_eq_round, round2_eq_round]
  have hr : round (a * 100) ≤ round (b * 100) := by
    rw [round_eq, round_eq]
    exact Int.floor_le_floor (by linarith)
  have : ((round (a * 100) : ℤ) : ℚ) ≤ ((round (b * 100) : ℤ) : ℚ) := by exact_mod_cast hr
  linarith

/-! ## `PQCAnalyzer` static tables (`tls.py`, `__init__`) -/

/-- `PQ_RESISTANCE_TABLE["kex"]`, in source (insertion) order. -/
def kexTable : List (String × ℤ) :=
  [("RSA", 0), ("DH", 0), ("DH-RSA", 0), ("DH-DSS", 0), ("ANON-DH", 0),
   ("DHE", 5), ("ECDH", 5), ("ECDHE", 10),
   ("X25519", 15), ("X448", 18), ("CURVE25519", 15), ("CURVE448", 18),
   ("secp224r1", 3), ("secp256r1", 5), ("secp256k1", 4), ("secp384r1", 8),
   ("secp521r1", 10), ("PRIME256V1", 5),
   ("brainpoolP256r1", 6), ("brainpoolP384r1", 9), ("brainpoolP512r1", 11),
   ("ffdhe2048", 7), ("ffdhe3072", 9), ("ffdhe4096", 11),
   ("ffdhe6144", 13), ("ffdhe8192", 15),
   ("KYBER", 95), ("KYBER512", 90), ("KYBER768", 95), ("KYBER1024", 98),
   ("CRYSTALS-KYBER", 95), ("ML-KEM", 95), ("ML-KEM-512", 90),
   ("ML-KEM-768", 95), ("ML-KEM-1024", 98),
   ("BIKE", 85), ("BIKE-L1", 83), ("BIKE-L3", 87), ("BIKE-L5", 89),
   ("SIKE", 0), ("NTRU", 85), ("NTRUPRIME", 87), ("SNTRUP", 86),
   ("SNTRUP761", 86), ("SNTRUP857", 87), ("SNTRUP1277", 89),
   ("SABER", 88), ("LIGHTSABER", 85), ("FIRESABER", 90),
   ("FRODO", 92), ("FRODOKEM", 92), ("FRODOKEM-640", 90),
   ("FRODOKEM-976", 92), ("FRODOKEM-1344", 94),
   ("HQC", 88), ("CLASSIC-MCELIECE", 93), ("MCELIECE", 93),
   ("NEWHOPE", 87), ("NEWHOPE512", 85), ("NEWHOPE1024", 89),
   ("NTRU-HRSS", 87), ("NTRU-HPS", 88),
   ("X25519-KYBER768", 96), ("X25519-KYBER512", 93),
   ("X448-KYBER768", 97), ("X448-KYBER1024", 97),
   ("P256-KYBER512", 92), ("P384-KYBER768", 95),
   ("ECDHE-KYBER", 94), ("ECDHE-NTRU", 90),
   ("PSK", 40), ("DHE-PSK", 45), ("ECDHE-PSK", 50),
   ("RSA-PSK", 35)]

/-- `PQ_RESISTANCE_TABLE["signature"]`, in source order. -/
def signatureTable : List (String × ℤ) :=
  [("RSA", 0), ("DSA", 0), ("DSS", 0), ("ECDSA", 5),
   ("DSA-1024", 0), ("DSA-2048", 3), ("DSA-3072", 5),
   ("RSA-PSS", 8), ("RSASSA-PSS", 8),
   ("EdDSA", 60), ("Ed25519", 65), ("Ed448", 70),
   ("DILITHIUM", 95), ("DILITHIUM2", 92), ("DILITHIUM3", 95), ("DILITHIUM5", 98),
   ("ML-DSA", 95), ("ML-DSA-44", 92), ("ML-DSA-65", 95), ("ML-DSA-87", 98),
   ("FALCON", 94), ("FALCON512", 92), ("FALCON1024", 96),
   ("SPHINCS", 96), ("SPHINCS+", 97),
   ("SPHINCS+-128F", 95), ("SPHINCS+-192F", 96), ("SPHINCS+-256F", 97),
   ("SPHINCS+-128S", 96), ("SPHINCS+-192S", 97), ("SPHINCS+-256S", 98),
   ("SLH-DSA", 97),
   ("XMSS", 91), ("LMS", 90), ("HSS-LMS", 91),
   ("RAINBOW", 0), ("PICNIC", 88), ("PICNIC3", 89),
   ("PICNIC-L1", 87), ("PICNIC-L3", 89), ("PICNIC-L5", 91), ("MAYO", 89), ("UOV", 84),
   ("GeMSS", 86), ("LUOV", 84),
   ("SM2", 55), ("GOST-SIGNATURE", 58), ("GOST-2012", 60),
   ("RSA-DILITHIUM", 85), ("RSA+DILITHIUM", 85),
   ("ECDSA-DILITHIUM", 88), ("ECDSA+DILITHIUM", 88),
   ("ECDSA-FALCON", 87), ("ECDSA+FALCON", 87),
   ("RSA-SPHINCS+", 86), ("RSA-FALCON", 86),
   ("Ed25519-DILITHIUM", 90), ("Ed448-DILITHIUM3", 91),
   ("Ed448-FALCON1024", 92)]

/-- `PQ_RESISTANCE_TABLE["symmetric"]`, in source order. -/
def symmetricTable : List (String × ℤ) :=
  [("AES-128", 70), ("AES-192", 80), ("AES-256", 85),
   ("AES-128-GCM", 75), ("AES-192-GCM", 82), ("AES-256-GCM", 90),
   ("AES-128-CCM", 72), ("AES-256-CCM", 88),
   ("AES-128-OCB", 73), ("AES-256-OCB", 89),
   ("AES-GCM-SIV", 89), ("AES-SIV", 87), ("AES-EAX", 86),
   ("AEGIS-128", 79), ("AEGIS-256", 84),
   ("ChaCha20", 82), ("ChaCha20-Poly1305", 88),
   ("XChaCha20", 83), ("XChaCha20-Poly1305", 88),
   ("Salsa20", 75), ("XSalsa20", 76),
   ("Camellia-128", 60), ("Camellia-192", 70), ("Camellia-256", 80),
   ("ARIA-128", 62), ("ARIA-192", 72), ("ARIA-256", 82),
   ("Twofish", 70), ("Twofish-256", 78),
   ("Serpent", 75), ("Serpent-256", 82),
   ("ASCON-128", 80), ("ASCON-128A", 82),
   ("GIFT-128", 75), ("SPARKLE", 76),
   ("GRAIN-128AEAD", 74), ("TINYJAMBU", 73),
   ("DEOXYS-II", 77),
   ("3DES", 20), ("DES", 0), ("RC4", 0), ("RC2", 0),
   ("Blowfish", 30), ("IDEA", 25), ("CAST5", 28)]

/-- `PQ_RESISTANCE_TABLE["hash"]`, in source order. -/
def hashTable : List (String × ℤ) :=
  [("MD5", 0), ("MD4", 0), ("MD2", 0),
   ("SHA1", 10), ("SHA-1", 10), ("RIPEMD-160", 35),
   ("SHA224", 50), ("SHA-224", 50), ("SHA256", 70), ("SHA-256", 70),
   ("SHA384", 80), ("SHA-384", 80), ("SHA512", 85), ("SHA-512", 85),
   ("SHA512/224", 78), ("SHA512/256", 80),
   ("SHA3-224", 70), ("SHA3-256", 72), ("SHA3-384", 82), ("SHA3-512", 88),
   ("SHAKE128", 73), ("SHAKE256", 86),
   ("Keccak", 72), ("Keccak-256", 72),
   ("BLAKE2b", 80), ("BLAKE2s", 78), ("BLAKE3", 85),
   ("BLAKE2b-256", 80), ("BLAKE2b-512", 83),
   ("BLAKE2BP", 82), ("BLAKE2SP", 81),
   ("ASCON-HASH", 78), ("ASCON-HASHA", 79),
   ("Whirlpool", 72), ("SM3", 68), ("GOST", 60),
   ("STREEBOG-256", 65), ("STREEBOG-512", 70),
   ("LSH-256", 68), ("LSH-512", 73), ("GOST-HASH", 62)]

/-- `PQ_RESISTANCE_TABLE.get(algo_type, {})`. -/
def typeTable (algo_type : String) : List (String × ℤ) :=
  if algo_type = "kex" then kexTable
  else if algo_type = "signature" then signatureTable
  else if algo_type = "symmetric" then symmetricTable
  else if algo_type = "hash" then hashTable
  else []

/-- `PROTOCOL_SCORES`. -/
def PROTOCOL_SCORES : List (String × ℤ) :=
  [("SSL 2.0", 0), ("SSL 3.0", 0),
   ("TLS 1.0", 20), ("TLS 1.1", 40), ("TLS 1.2", 75), ("TLS 1.3", 90),
   ("DTLS 1.0", 30), ("DTLS 1.2", 75), ("DTLS 1.3", 90),
   ("QUIC", 85)]

/-- `WEIGHTS`: fixed per-category weights for the overall score. -/
def WEIGHTS : List (String × ℚ) :=
  [("kex", 35/100), ("signature", 30/100), ("symmetric", 15/100),
   ("certificate", 10/100), ("protocol", 10/100)]

/-- `PQC_ALGORITHMS` (a Python set used only through `any`-style
membership scans, so list order is irrelevant; transcribed in source
order).  Note "GeMSS" is kept in its source mixed-case form: it is
compared against uppercased names and hence can never match, exactly as
in the source. -/
def PQC_ALGORITHMS : List String :=
  ["KYBER", "BIKE", "SIKE", "NTRU", "SABER", "FRODO", "HQC", "NTRUPRIME",
   "DILITHIUM", "FALCON", "SPHINCS", "RAINBOW", "PICNIC", "GeMSS",
   "XMSS", "LMS", "MCELIECE", "CLASSIC-MCELIECE", "ML-KEM", "ML-DSA",
   "SLH-DSA", "CRYSTALS", "SNTRUP", "LIGHTSABER", "FIRESABER", "FRODOKEM",
   "NEWHOPE", "LUOV"]

/-- `DEPRECATED_ALGORITHMS` (a Python set, used only through `any`). -/
def DEPRECATED_ALGORITHMS : List String :=
  ["MD5", "MD4", "MD2", "SHA1", "SHA-1", "DES", "3DES", "RC4", "RC2",
   "SSL 2.0", "SSL 3.0", "TLS 1.0", "TLS 1.1", "DSA", "DSS",
   "ANON-DH", "IDEA", "RAINBOW", "SIKE", "DSA-1024"]

/-! ## Individual-algorithm scoring (`tls.py`, `PQCAnalyzer`) -/

/-- `score_to_grade`. -/
def score_to_grade (score : ℚ) : String :=
  if score ≥ 95 then "A+"
  else if score ≥ 90 then "A"
  else if score ≥ 85 then "A-"
  else if score ≥ 80 then "B+"
  else if score ≥ 75 then "B"
  else if score ≥ 70 then "B-"
  else if score ≥ 65 then "C+"
  else if score ≥ 60 then "C"
  else if score ≥ 50 then "D"
  else "F"

/-- `get_security_level`. -/
def get_security_level (score : ℚ) : String :=
  if score ≥ 90 then "high"
  else if score ≥ 70 then "medium"
  else if score ≥ 50 then "low"
  else "critical"

/-- `is_hybrid_algorithm`. -/
def is_hybrid_algorithm (algorithm : String) : Bool :=
  let u := upperStr algorithm
  if substr "+" u || substr "-" u || substr "HYBRID" u then
    (["RSA", "ECDSA", "ECDHE", "X25519", "X448", "ED25519", "P256", "P384"].any
        (fun classic => substr classic u))
      && (PQC_ALGORITHMS.any (fun pqc => substr pqc u))
  else false

/-- The RSA/DSA branch of `calculate_key_size_score`; `none` models the
branch falling through without a `return` (e.g. `2048 < key_size < 3072`). -/
def keySizeRSA (ks : ℤ) : Option ℤ :=
  if ks < 1024 then some (-40)
  else if ks < 2048 then some (-30)
  else if ks = 2048 then some 5
  else if ks = 3072 then some 10
  else if ks ≥ 4096 then some 15
  else none

/-- The elliptic-curve branch of `calculate_key_size_score`. -/
def keySizeEC (ks : ℤ) : Option ℤ :=
  if ks < 224 then some (-25)
  else if ks < 256 then some (-15)
  else if ks = 256 then some 5
  else if ks = 384 then some 10
  else if ks ≥ 521 then some 15
  else none

/-- The AES branch of `calculate_key_size_score`. -/
def keySizeAES (ks : ℤ) : Option ℤ :=
  if ks = 128 then some 0
  else if ks = 192 then some 10
  else if ks = 256 then some 20
  else none

/-- The ChaCha branch of `calculate_key_size_score`. -/
def keySizeChaCha (ks : ℤ) : Option ℤ :=
  if ks = 256 then some 15 else none

/-- The PQC branch of `calculate_key_size_score`. -/
def keySizePQC (ks : ℤ) : Option ℤ :=
  if ks ≥ 3000 then some 8
  else if ks ≥ 1500 then some 5
  else if ks ≥ 800 then some 3
  else none

/-- `calculate_key_size_score`.  `if not key_size` is true exactly for
`key_size = 0`; a family branch whose inner ladder does not `return`
falls through to the next family check, ending at `return 0.0`. -/
def calculate_key_size_score (algorithm : String) (key_size : ℤ) (_algo_type : String) : ℤ :=
  if key_size = 0 then 0
  else
    let u := upperStr algorithm
    let r1 := if ["RSA", "DSA"].any (fun x => substr x u) then keySizeRSA key_size else none
    let r2 := if ["ECDSA", "ECDH", "EC", "ED25519", "ED448"].any (fun x => substr x u) then
        keySizeEC key_size else none
    let r3 := if substr "AES" u then keySizeAES key_size else none
    let r4 := if substr "CHACHA" u then keySizeChaCha key_size else none
    let r5 := if PQC_ALGORITHMS.any (fun pqc => substr pqc u) then keySizePQC key_size else none
    ((((r1 <|> r2) <|> r3) <|> r4) <|> r5).getD 0

/-- The name-based ladder of `calculate_curve_strength_score`; `none`
models falling through to the bit-length banding (no curve-name match,
or a brainpool name without a recognized size). -/
def curveNameScore (u : String) : Option ℤ :=
  if substr "X25519" u || substr "CURVE25519" u then some 15
  else if substr "X448" u || substr "CURVE448" u then some 20
  else if substr "SECP256R1" u || substr "PRIME256V1" u then some 5
  else if substr "SECP256K1" u then some 4
  else if substr "SECP384R1" u then some 10
  else if substr "SECP521R1" u then some 12
  else if substr "BRAINPOOL" u then
    if substr "512" u then some 11
    else if substr "384" u then some 9
    else if substr "256" u then some 6
    else none
  else none

/-- The bit-length banding tail of `calculate_curve_strength_score`
(`if curve_bits:` is false exactly for `curve_bits = 0`). -/
def curveBitsScore (bits : ℤ) : ℤ :=
  if bits = 0 then 0
  else if bits ≥ 512 then 12
  else if bits ≥ 384 then 10
  else if bits ≥ 256 then 5
  else if bits ≥ 224 then 3
  else 0

/-- `calculate_curve_strength_score` (`if not curve` is true exactly for
the empty string). -/
def calculate_curve_strength_score (curve : String) (curve_bits : ℤ) : ℤ :=
  if curve = "" then 0
  else
    match curveNameScore (upperStr curve) with
    | some v => v
    | none => curveBitsScore curve_bits

/-- Base-score lookup of `score_individual_algorithm`: exact table
lookup, then the first key related to the name by bidirectional
substring containment (in table insertion order), then 0. -/
def lookupBase (algorithm algo_type : String) : ℤ :=
  let table := typeTable algo_type
  match table.lookup algorithm with
  | some v => v
  | none =>
    let u := upperStr algorithm
    match table.find? (fun kv => substr (upperStr kv.1) u || substr u (upperStr kv.1)) with
    | some kv => kv.2
    | none => 0

/-- `position_decay = 1.0 / (1 + 0.05 * position) if position >= 0 else 1.0`. -/
def positionDecay (position : ℤ) : ℚ :=
  if 0 ≤ position then 1 / (1 + (5/100) * (position : ℚ)) else 1

/-- The clamped final score `max(0, min(100, base + key_size + curve))`
of `score_individual_algorithm`, before the 2-decimal output rounding. -/
def finalScoreClamped (algorithm algo_type : String)
    (key_size : Option ℤ) (curve : Option String) (curve_bits : Option ℤ) : ℤ :=
  max 0 (min 100
    (lookupBase algorithm algo_type
      + calculate_key_size_score algorithm (key_size.getD 0) algo_type
      + calculate_curve_strength_score (curve.getD "") (curve_bits.getD 0)))

/-- `final_score * position_decay` before the 2-decimal output rounding. -/
def weightedRaw (algorithm algo_type : String)
    (key_size : Option ℤ) (curve : Option String) (curve_bits : Option ℤ)
    (position : ℤ) : ℚ :=
  ((finalScoreClamped algorithm algo_type key_size curve curve_bits : ℤ) : ℚ)
    * positionDecay position

/-- `AlgorithmScore` (`tls.py` dataclass). -/
structure AlgorithmScore where
  algorithm : String
  algorithm_type : String
  base_score : ℤ
  key_size : ℤ
  key_size_score : ℤ
  curve_strength : ℤ
  final_score : ℚ
  grade : String
  is_pqc : Bool
  is_hybrid : Bool
  position : ℤ
  weighted_score : ℚ
  security_level : String
  quantum_safe : Bool
  deprecated : Bool
  vulnerabilities : List String
deriving DecidableEq, Repr

/-- `score_individual_algorithm`.  Optional parameters keep their Python
`None` defaults through `Option`; `key_size or 0` and `curve or ""` are
`getD`. -/
def score_individual_algorithm (algorithm algo_type : String)
    (key_size : Option ℤ := none) (curve : Option String := none)
    (curve_bits : Option ℤ := none) (position : ℤ := 0) : AlgorithmScore :=
  let base := lookupBase algorithm algo_type
  let ks := calculate_key_size_score algorithm (key_size.getD 0) algo_type
  let cs := calculate_curve_strength_score (curve.getD "") (curve_bits.getD 0)
  let final : ℤ := max 0 (min 100 (base + ks + cs))
  let weighted : ℚ := (final : ℚ) * positionDecay position
  let u := upperStr algorithm
  let is_pqc := PQC_ALGORITHMS.any (fun pqc => substr pqc u)
  let is_hybrid := is_hybrid_algorithm algorithm
  let deprecated := DEPRECATED_ALGORITHMS.any (fun dep => substr dep u)
  { algorithm := algorithm
    algorithm_type := algo_type
    base_score := base
    key_size := key_size.getD 0
    key_size_score := ks
    curve_strength := cs
    final_score := round2 ((final : ℤ) : ℚ)
    grade := score_to_grade ((final : ℤ) : ℚ)
    is_pqc := is_pqc
    is_hybrid := is_hybrid
    position := position
    weighted_score := round2 weighted
    security_level := get_security_level ((final : ℤ) : ℚ)
    quantum_safe := is_pqc || (is_hybrid && decide ((final : ℤ) ≥ 85))
    deprecated := deprecated
    vulnerabilities := [] }

/-! ## Basic facts about the scorer -/

theorem score_weighted_score_eq (a t : String) (ks : Option ℤ) (c : Option String)
    (cb : Option ℤ) (p : ℤ) :
    (score_individual_algorithm a t ks c cb p).weighted_score
      = round2 (weightedRaw a t ks c cb p) := rfl

theorem score_final_score_eq (a t : String) (ks : Option ℤ) (c : Option String)
    (cb : Option ℤ) (p : ℤ) :
    (score_individual_algorithm a t ks c cb p).final_score
      = round2 ((finalScoreClamped a t ks c cb : ℤ) : ℚ) := rfl

theorem finalScoreClamped_nonneg (a t : String) (ks : Option ℤ) (c : Option String)
    (cb : Option ℤ) : 0 ≤ finalScoreClamped a t ks c cb :=
  le_max_left _ _

theorem finalScoreClamped_le_100 (a t : String) (ks : Option ℤ) (c : Option String)
    (cb : Option ℤ) : finalScoreClamped a t ks c cb ≤ 100 := by
  unfold finalScoreClamped
  omega

theorem positionDecay_pos {p : ℤ} (hp : 0 ≤ p) : 0 < positionDecay p := by
  unfold positionDecay
  rw [if_pos hp]
  have hq : (0 : ℚ) ≤ (p : ℚ) := by exact_mod_cast hp
  have : (0 : ℚ) < 1 + (5/100) * (p : ℚ) := by linarith
  exact one_div_pos.mpr this

theorem positionDecay_succ_lt {p : ℤ} (hp : 0 ≤ p) : positionDecay (p + 1) < positionDecay p := by
  unfold positionDecay
  rw [if_pos (by omega : (0 : ℤ) ≤ p + 1), if_pos hp]
  have hq : (0 : ℚ) ≤ (p : ℚ) := by exact_mod_cast hp
  have h1 : (0 : ℚ) < 1 + (5/100) * (p : ℚ) := by linarith
  have h2 : 1 + (5/100) * (p : ℚ) < 1 + (5/100) * ((p + 1 : ℤ) : ℚ) := by push_cast; linarith
  exact one_div_lt_one_div_of_lt h1 h2

/-! ## Claim C1 -/

/-- C1 (counterexample): the claim states that "ECDSA" is not flagged
deprecated, but `score_individual_algorithm` flags it deprecated
(because membership in `DEPRECATED_ALGORITHMS` is tested by substring
containment and "ECDSA" contains "DSA"). -/
theorem c1_counterexample :
    (score_individual_algorithm "ECDSA" "signature" none none none 0).deprecated = true := by
  decide

/-- C1 (amended): the `deprecated` flag returned by
`score_individual_algorithm` is true exactly when some member of the
fixed `DEPRECATED_ALGORITHMS` set occurs as a substring of the
uppercased algorithm name; in particular plain "DSA" is deprecated, and
so are "ECDSA" and "ML-DSA" (both contain "DSA"). -/
theorem c1_deprecated_flag :
    (∀ (a t : String) (ks : Option ℤ) (c : Option String) (cb : Option ℤ) (p : ℤ),
      (score_individual_algorithm a t ks c cb p).deprecated = true
        ↔ ∃ dep ∈ DEPRECATED_ALGORITHMS, substr dep (upperStr a) = true)
    ∧ (score_individual_algorithm "DSA" "signature" none none none 0).deprecated = true
    ∧ (score_individual_algorithm "ML-DSA" "signature" none none none 0).deprecated = true := by
  refine ⟨fun a t ks c cb p => ?_, by decide, by decide⟩
  show (DEPRECATED_ALGORITHMS.any fun dep => substr dep (upperStr a)) = true ↔ _
  simp [List.any_eq_true]

/-! ## Claim C5 -/

/-- C5: for every input, the stored `final_score` equals
`clamp(base_score + key_size_adjustment + curve_strength_adjustment, 0, 100)`
(the 2-decimal output rounding is the identity on this integral value),
and `0 ≤ final_score ≤ 100`. -/
theorem c5_final_score_clamped (a t : String) (ks : Option ℤ) (c : Option String)
    (cb : Option ℤ) (p : ℤ) :
    (score_individual_algorithm a t ks c cb p).final_score
        = ((max 0 (min 100 (lookupBase a t
            + calculate_key_size_score a (ks.getD 0) t
            + calculate_curve_strength_score (c.getD "") (cb.getD 0))) : ℤ) : ℚ)
    ∧ 0 ≤ (score_individual_algorithm a t ks c cb p).final_score
    ∧ (score_individual_algorithm a t ks c cb p).final_score ≤ 100 := by
  have h : (score_individual_algorithm a t ks c cb p).final_score
      = round2 ((finalScoreClamped a t ks c cb : ℤ) : ℚ) := rfl
  rw [h, round2_intCast]
  refine ⟨rfl, ?_, ?_⟩
  · exact_mod_cast finalScoreClamped_nonneg a t ks c cb
  · exact_mod_cast finalScoreClamped_le_100 a t ks c cb

/-! ## Claim C3 -/

/-- C3 (counterexample): the claim's strict decrease in position fails;
for `"DES"` (final score 0) the weighted score at position 1 is not
strictly below the weighted score at position 0 (both are 0). -/
theorem c3_counterexample :
    ¬ ((score_individual_algorithm "DES" "symmetric" none none none 1).weighted_score
        < (score_individual_algorithm "DES" "symmetric" none none none 0).weighted_score) := by
  with_unfolding_all decide

/-- C3 (amended): for a fixed algorithm and context the stored
`weighted_score` is non-increasing in the position, and the un-rounded
product `final_score * position_decay` is strictly decreasing whenever
the clamped final score is positive.  (Strictness fails as stated in
the claim both when the final score is 0 and when the 2-decimal
rounding collapses adjacent positions.) -/
theorem c3_weighted_score_position (a t : String) (ks : Option ℤ) (c : Option String)
    (cb : Option ℤ) (p : ℤ) (hp : 0 ≤ p) :
    (score_individual_algorithm a t ks c cb (p + 1)).weighted_score
        ≤ (score_individual_algorithm a t ks c cb p).weighted_score
    ∧ (0 < finalScoreClamped a t ks c cb →
        weightedRaw a t ks c cb (p + 1) < weightedRaw a t ks c cb p) := by
  have hF0 : (0 : ℚ) ≤ ((finalScoreClamped a t ks c cb : ℤ) : ℚ) := by
    exact_mod_cast finalScoreClamped_nonneg a t ks c cb
  constructor
  · rw [score_weighted_score_eq, score_weighted_score_eq]
    apply round2_mono
    unfold weightedRaw
    exact mul_le_mul_of_nonneg_left (le_of_lt (positionDecay_succ_lt hp)) hF0
  · intro hF
    unfold weightedRaw
    have hFq : (0 : ℚ) < ((finalScoreClamped a t ks c cb : ℤ) : ℚ) := by exact_mod_cast hF
    exact mul_lt_mul_of_pos_left (positionDecay_succ_lt hp) hFq

/-- C3 witness: the amended theorem applied at the concrete input
`("AES-256-GCM", "symmetric", key_size 256)` and position 0. -/
theorem c3_weighted_score_position_witness :
    (score_individual_algorithm "AES-256-GCM" "symmetric" (some 256) none none 1).weighted_score
        ≤ (score_individual_algorithm "AES-256-GCM" "symmetric" (some 256) none none 0).weighted_score
    ∧ weightedRaw "AES-256-GCM" "symmetric" (some 256) none none 1
        < weightedRaw "AES-256-GCM" "symmetric" (some 256) none none 0 := by
  have h := c3_weighted_score_position "AES-256-GCM" "symmetric" (some 256) none none 0
    (by decide)
  exact ⟨h.1, h.2 (by with_unfolding_all decide)⟩

/-! ## Algorithm-name parsing (`tls.py`) -/

/-- The hybrid-combination check inside the PQC loop of
`parse_algorithm_from_suite` for a matched PQC pattern. -/
def pqcKexCombo (u pqc : String) : String :=
  if substr "X25519" u then "X25519-" ++ pqc
  else if substr "X448" u then "X448-" ++ pqc
  else if substr "P256" u then "P256-" ++ pqc
  else if substr "P384" u then "P384-" ++ pqc
  else pqc

/-- `parse_algorithm_from_suite`.  Returns `none` where the source
returns `None` (no pattern matched, or a field other than
"kex"/"symmetric"). -/
def parse_algorithm_from_suite (suite_name field : String) : Option String :=
  let u := upperStr suite_name
  if field = "kex" then
    match ["KYBER1024", "KYBER768", "KYBER512", "KYBER", "NTRU", "SABER", "FRODO"].find?
        (fun pqc => substr pqc u) with
    | some pqc => some (pqcKexCombo u pqc)
    | none =>
      if substr "ECDHE" u then
        if substr "X25519" u then some "X25519"
        else if substr "X448" u then some "X448"
        else some "ECDHE"
      else if substr "DHE" u && !substr "ECDHE" u then some "DHE"
      else if substr "FFDHE8192" u then some "ffdhe8192"
      else if substr "FFDHE6144" u then some "ffdhe6144"
      else if substr "FFDHE4096" u then some "ffdhe4096"
      else if substr "FFDHE3072" u then some "ffdhe3072"
      else if substr "FFDHE2048" u then some "ffdhe2048"
      else if substr "DH-RSA" u then some "DH-RSA"
      else if substr "DH-DSS" u then some "DH-DSS"
      else if substr "ANON" u && substr "DH" u then some "ANON-DH"
      else if substr "_RSA_" u || substr "TLS_RSA_" u then some "RSA"
      else if substr "ECDH" u then some "ECDH"
      else if substr "_DH_" u then some "DH"
      else if substr "PSK" u then
        if substr "ECDHE" u then some "ECDHE-PSK"
        else if substr "DHE" u then some "DHE-PSK"
        else if substr "RSA" u then some "RSA-PSK"
        else some "PSK"
      else none
  else if field = "symmetric" then
    if substr "AES_256_GCM" u then some "AES-256-GCM"
    else if substr "AES_192_GCM" u then some "AES-192-GCM"
    else if substr "AES_128_GCM" u then some "AES-128-GCM"
    else if substr "AES_256_CCM" u then some "AES-256-CCM"
    else if substr "AES_128_CCM" u then some "AES-128-CCM"
    else if substr "AES_256" u then some "AES-256"
    else if substr "AES_192" u then some "AES-192"
    else if substr "AES_128" u then some "AES-128"
    else if substr "CHACHA20" u then
      if substr "POLY1305" u then some "ChaCha20-Poly1305" else some "ChaCha20"
    else if substr "CAMELLIA_256" u then some "Camellia-256"
    else if substr "CAMELLIA_128" u then some "Camellia-128"
    else if substr "ARIA_256" u then some "ARIA-256"
    else if substr "ARIA_128" u then some "ARIA-128"
    else if substr "ASCON" u then some "ASCON-128"
    else if substr "3DES" u then some "3DES"
    else if substr "RC4" u then some "RC4"
    else if substr "DES" u && !substr "3DES" u then some "DES"
    else none
  else none

/-- `parse_signature_algorithm`: canonicalizes a raw signature-algorithm
name, defaulting to "RSA" when nothing matches. -/
def parse_signature_algorithm (sig_algo : String) : String :=
  let u := upperStr sig_algo
  if substr "DILITHIUM5" u || substr "ML-DSA-87" u then "DILITHIUM5"
  else if substr "DILITHIUM3" u || substr "ML-DSA-65" u then "DILITHIUM3"
  else if substr "DILITHIUM2" u || substr "ML-DSA-44" u then "DILITHIUM2"
  else if substr "DILITHIUM" u || substr "ML-DSA" u then "DILITHIUM"
  else if substr "FALCON1024" u then "FALCON1024"
  else if substr "FALCON512" u then "FALCON512"
  else if substr "FALCON" u then "FALCON"
  else if substr "SPHINCS+" u || substr "SLH-DSA" u then "SPHINCS+"
  else if substr "SPHINCS" u then "SPHINCS"
  else if substr "XMSS" u then "XMSS"
  else if substr "LMS" u || substr "HSS-LMS" u then "LMS"
  else if substr "RSA" u && substr "DILITHIUM" u then "RSA+DILITHIUM"
  else if substr "ECDSA" u && substr "DILITHIUM" u then "ECDSA+DILITHIUM"
  else if substr "ECDSA" u && substr "FALCON" u then "ECDSA+FALCON"
  else if substr "ED448" u && substr "DILITHIUM" u then "Ed448-DILITHIUM3"
  else if substr "ED448" u && substr "FALCON" u then "Ed448-FALCON1024"
  else if substr "ED448" u then "Ed448"
  else if substr "ED25519" u || substr "EDDSA" u then "Ed25519"
  else if substr "RSA-PSS" u || substr "RSASSA-PSS" u then "RSA-PSS"
  else if substr "ECDSA" u then "ECDSA"
  else if substr "SM2" u then "SM2"
  else if substr "GOST" u then "GOST-SIGNATURE"
  else if substr "RSA" u then "RSA"
  else if substr "DSA" u || substr "DSS" u then "DSA"
  else "RSA"

/-- `parse_hash_algorithm`: canonicalizes a raw hash-algorithm name,
defaulting to "SHA256" when nothing matches. -/
def parse_hash_algorithm (hash_algo : String) : String :=
  let u := upperStr hash_algo
  if substr "SHA3-512" u || substr "SHA3_512" u then "SHA3-512"
  else if substr "SHA3-384" u || substr "SHA3_384" u then "SHA3-384"
  else if substr "SHA3-256" u || substr "SHA3_256" u then "SHA3-256"
  else if substr "SHA3" u then "SHA3-256"
  else if substr "SHAKE256" u then "SHAKE256"
  else if substr "SHAKE128" u then "SHAKE128"
  else if substr "SHA512/256" u then "SHA512/256"
  else if substr "SHA512" u || substr "SHA-512" u then "SHA512"
  else if substr "SHA384" u || substr "SHA-384" u then "SHA384"
  else if substr "SHA256" u || substr "SHA-256" u then "SHA256"
  else if substr "SHA224" u || substr "SHA-224" u then "SHA224"
  else if substr "SHA1" u || substr "SHA-1" u then "SHA1"
  else if substr "MD5" u then "MD5"
  else if substr "MD4" u then "MD4"
  else if substr "BLAKE3" u then "BLAKE3"
  else if substr "BLAKE2B-512" u then "BLAKE2b-512"
  else if substr "BLAKE2B" u then "BLAKE2b"
  else if substr "BLAKE2S" u then "BLAKE2s"
  else if substr "ASCON" u then "ASCON-HASH"
  else if substr "STREEBOG-512" u then "STREEBOG-512"
  else if substr "STREEBOG" u then "STREEBOG-256"
  else if substr "LSH-512" u then "LSH-512"
  else if substr "LSH" u then "LSH-256"
  else if substr "WHIRLPOOL" u then "Whirlpool"
  else if substr "SM3" u then "SM3"
  else if substr "RIPEMD" u then "RIPEMD-160"
  else if substr "KECCAK" u then "Keccak"
  else if substr "GOST" u then "GOST-HASH"
  else "SHA256"

/-! ## Cipher-suite field extraction (`crypto_audit.py`) -/

/-- `extract_encryption_algorithm`. -/
def extract_encryption_algorithm (cipher_name : String) : String :=
  if substr "AES_128_GCM" cipher_name then "AES-128-GCM"
  else if substr "AES_256_GCM" cipher_name then "AES-256-GCM"
  else if substr "AES_128_CBC" cipher_name then "AES-128-CBC"
  else if substr "AES_256_CBC" cipher_name then "AES-256-CBC"
  else if substr "CHACHA20_POLY1305" cipher_name then "ChaCha20-Poly1305"
  else "Unknown"

/-- `extract_key_exchange`: note the no-match default is the placeholder
string "Unknown", not an absent value. -/
def extract_key_exchange (cipher_name : String) (kx_type : Option String) : String :=
  if substr "ECDHE" cipher_name then "ECDHE"
  else if kx_type = some "ECDH" then "ECDH"
  else if substr "RSA" cipher_name && !substr "ECDHE" cipher_name then "RSA"
  else "Unknown"

/-- `extract_authentication`. -/
def extract_authentication (cipher_name : String) : String :=
  if substr "RSA" cipher_name then "RSA" else "Unknown"

/-- Input shape of a raw TLS 1.2 cipher-suite record as read by
`transform_tls12_cipher_suite` (absent dict keys are `none`). -/
structure Tls12SuiteIn where
  name : Option String := none
  kxType : Option String := none
  namedGroupName : Option String := none
  namedGroupBits : Option ℤ := none
deriving DecidableEq, Repr

/-- Output shape of `transform_tls12_cipher_suite`: the `curve` /
`curve_bits` keys are present only when `namedGroupName` was, and the
PQC score groups are present exactly when the corresponding extracted
name is truthy. -/
structure TransformedSuite12 where
  name : String
  encryption : String
  key_exchange : String
  authentication : String
  curve : Option String
  curve_bits : Option ℤ
  kex_score : Option AlgorithmScore
  encryption_score : Option AlgorithmScore
deriving DecidableEq, Repr

/-- `transform_tls12_cipher_suite` (`crypto_audit.py`). -/
def transform_tls12_cipher_suite (suite : Tls12SuiteIn) (position : ℤ := 0) :
    TransformedSuite12 :=
  let name := suite.name.getD ""
  let encryption := extract_encryption_algorithm name
  let key_exchange := extract_key_exchange name suite.kxType
  let authentication := extract_authentication name
  let curve := suite.namedGroupName
  let curve_bits : Option ℤ :=
    if suite.namedGroupName.isSome then some (suite.namedGroupBits.getD 0) else none
  let kex_score :=
    if key_exchange ≠ "" then
      some (score_individual_algorithm key_exchange "kex" none curve curve_bits position)
    else none
  let encryption_score :=
    if encryption ≠ "" then
      let key_size : ℤ :=
        if substr "256" encryption then 256
        else if substr "192" encryption then 192
        else 128
      some (score_individual_algorithm encryption "symmetric" (some key_size) none none position)
    else none
  { name := name, encryption := encryption, key_exchange := key_exchange,
    authentication := authentication, curve := curve, curve_bits := curve_bits,
    kex_score := kex_score, encryption_score := encryption_score }

/-! ## Claim C4 -/

/-- Every substring pattern tested by `parse_signature_algorithm`,
`parse_hash_algorithm`, `parse_algorithm_from_suite` (kex and symmetric)
and `extract_key_exchange`: a raw name "matches no known pattern"
exactly when none of these occurs in its uppercased form. -/
def noMatchPatterns : List String :=
  ["DILITHIUM5", "ML-DSA-87", "DILITHIUM3", "ML-DSA-65", "DILITHIUM2", "ML-DSA-44",
   "DILITHIUM", "ML-DSA", "FALCON1024", "FALCON512", "FALCON", "SPHINCS+", "SLH-DSA",
   "SPHINCS", "XMSS", "LMS", "HSS-LMS", "ED448", "ED25519", "EDDSA", "RSA-PSS",
   "RSASSA-PSS", "ECDSA", "SM2", "GOST", "RSA", "DSA", "DSS",
   "SHA3-512", "SHA3_512", "SHA3-384", "SHA3_384", "SHA3-256", "SHA3_256", "SHA3",
   "SHAKE256", "SHAKE128", "SHA512/256", "SHA512", "SHA-512", "SHA384", "SHA-384",
   "SHA256", "SHA-256", "SHA224", "SHA-224", "SHA1", "SHA-1", "MD5", "MD4",
   "BLAKE3", "BLAKE2B-512", "BLAKE2B", "BLAKE2S", "ASCON", "STREEBOG-512", "STREEBOG",
   "LSH-512", "LSH", "WHIRLPOOL", "SM3", "RIPEMD", "KECCAK",
   "KYBER1024", "KYBER768", "KYBER512", "KYBER", "NTRU", "SABER", "FRODO",
   "ECDHE", "DHE", "FFDHE8192", "FFDHE6144", "FFDHE4096", "FFDHE3072", "FFDHE2048",
   "DH-RSA", "DH-DSS", "ANON", "_RSA_", "TLS_RSA_", "ECDH", "_DH_", "PSK",
   "AES_256_GCM", "AES_192_GCM", "AES_128_GCM", "AES_256_CCM", "AES_128_CCM",
   "AES_256", "AES_192", "AES_128", "CHACHA20", "CAMELLIA_256", "CAMELLIA_128",
   "ARIA_256", "ARIA_128", "3DES", "RC4", "DES"]

theorem substr_false_of_upper (p s : String) (hp : upperStr p = p)
    (h : substr p (upperStr s) = false) : substr p s = false := by
  cases hc : substr p s
  · rfl
  · exfalso
    have h2 := substr_upperStr hc
    rw [hp, h] at h2
    cases h2

/-- C4 (counterexample): for a raw cipher-suite name matching no known
pattern, `extract_key_exchange` does not leave the key-exchange absent —
it returns the placeholder "Unknown" — and its caller
`transform_tls12_cipher_suite` does not omit the kex score but scores
the placeholder. -/
theorem c4_counterexample :
    extract_key_exchange "TLS_FOO_WITH_BAR" none = "Unknown"
    ∧ (transform_tls12_cipher_suite { name := some "TLS_FOO_WITH_BAR" } 0).key_exchange
        = "Unknown"
    ∧ (transform_tls12_cipher_suite { name := some "TLS_FOO_WITH_BAR" } 0).kex_score ≠ none := by
  refine ⟨by decide, by decide, ?_⟩
  with_unfolding_all decide

/-- C4 (amended): for a raw name in which no known pattern occurs,
canonicalization yields "RSA" for the signature field, "SHA256" for the
hash field, and no name at all for the kex and symmetric fields of the
cipher-suite parser (whose caller `analyze_tls_configuration` then omits
the score) — but the transformer-side key-exchange extractor
`extract_key_exchange` instead returns the placeholder "Unknown", which
its caller scores rather than omits. -/
theorem c4_no_match_defaults (s : String) (kx : Option String)
    (h : ∀ p ∈ noMatchPatterns, substr p (upperStr s) = false)
    (hkx : kx ≠ some "ECDH") :
    parse_signature_algorithm s = "RSA"
    ∧ parse_hash_algorithm s = "SHA256"
    ∧ parse_algorithm_from_suite s "kex" = none
    ∧ parse_algorithm_from_suite s "symmetric" = none
    ∧ extract_key_exchange s kx = "Unknown" := by
  have hE : substr "ECDHE" s = false :=
    substr_false_of_upper _ s (by decide) (h "ECDHE" (by decide))
  have hR : substr "RSA" s = false :=
    substr_false_of_upper _ s (by decide) (h "RSA" (by decide))
  have hp0 : substr "DILITHIUM5" (upperStr s) = false := h "DILITHIUM5" (by decide)
  have hp1 : substr "ML-DSA-87" (upperStr s) = false := h "ML-DSA-87" (by decide)
  have hp2 : substr "DILITHIUM3" (upperStr s) = false := h "DILITHIUM3" (by decide)
  have hp3 : substr "ML-DSA-65" (upperStr s) = false := h "ML-DSA-65" (by decide)
  have hp4 : substr "DILITHIUM2" (upperStr s) = false := h "DILITHIUM2" (by decide)
  have hp5 : substr "ML-DSA-44" (upperStr s) = false := h "ML-DSA-44" (by decide)
  have hp6 : substr "DILITHIUM" (upperStr s) = false := h "DILITHIUM" (by decide)
  have hp7 : substr "ML-DSA" (upperStr s) = false := h "ML-DSA" (by decide)
  have hp8 : substr "FALCON1024" (upperStr s) = false := h "FALCON1024" (by decide)
  have hp9 : substr "FALCON512" (upperStr s) = false := h "FALCON512" (by decide)
  have hp10 : substr "FALCON" (upperStr s) = false := h "FALCON" (by decide)
  have hp11 : substr "SPHINCS+" (upperStr s) = false := h "SPHINCS+" (by decide)
  have hp12 : substr "SLH-DSA" (upperStr s) = false := h "SLH-DSA" (by decide)
  have hp13 : substr "SPHINCS" (upperStr s) = false := h "SPHINCS" (by decide)
  have hp14 : substr "XMSS" (upperStr s) = false := h "XMSS" (by decide)
  have hp15 : substr "LMS" (upperStr s) = false := h "LMS" (by decide)
  have hp16 : substr "HSS-LMS" (upperStr s) = false := h "HSS-LMS" (by decide)
  have hp17 : substr "ED448" (upperStr s) = false := h "ED448" (by decide)
  have hp18 : substr "ED25519" (upperStr s) = false := h "ED25519" (by decide)
  have hp19 : substr "EDDSA" (upperStr s) = false := h "EDDSA" (by decide)
  have hp20 : substr "RSA-PSS" (upperStr s) = false := h "RSA-PSS" (by decide)
  have hp21 : substr "RSASSA-PSS" (upperStr s) = false := h "RSASSA-PSS" (by decide)
  have hp22 : substr "ECDSA" (upperStr s) = false := h "ECDSA" (by decide)
  have hp23 : substr "SM2" (upperStr s) = false := h "SM2" (by decide)
  have hp24 : substr "GOST" (upperStr s) = false := h "GOST" (by decide)
  have hp25 : substr "RSA" (upperStr s) = false := h "RSA" (by decide)
  have hp26 : substr "DSA" (upperStr s) = false := h "DSA" (by decide)
  have hp27 : substr "DSS" (upperStr s) = false := h "DSS" (by decide)
  have hp28 : substr "SHA3-512" (upperStr s) = false := h "SHA3-512" (by decide)
  have hp29 : substr "SHA3_512" (upperStr s) = false := h "SHA3_512" (by decide)
  have hp30 : substr "SHA3-384" (upperStr s) = false := h "SHA3-384" (by decide)
  have hp31 : substr "SHA3_384" (upperStr s) = false := h "SHA3_384" (by decide)
  have hp32 : substr "SHA3-256" (upperStr s) = false := h "SHA3-256" (by decide)
  have hp33 : substr "SHA3_256" (upperStr s) = false := h "SHA3_256" (by decide)
  have hp34 : substr "SHA3" (upperStr s) = false := h "SHA3" (by decide)
  have hp35 : substr "SHAKE256" (upperStr s) = false := h "SHAKE256" (by decide)
  have hp36 : substr "SHAKE128" (upperStr s) = false := h "SHAKE128" (by decide)
  have hp37 : substr "SHA512/256" (upperStr s) = false := h "SHA512/256" (by decide)
  have hp38 : substr "SHA512" (upperStr s) = false := h "SHA512" (by decide)
  have hp39 : substr "SHA-512" (upperStr s) = false := h "SHA-512" (by decide)
  have hp40 : substr "SHA384" (upperStr s) = false := h "SHA384" (by decide)
  have hp41 : substr "SHA-384" (upperStr s) = false := h "SHA-384" (by decide)
  have hp42 : substr "SHA256" (upperStr s) = false := h "SHA256" (by decide)
  have hp43 : substr "SHA-256" (upperStr s) = false := h "SHA-256" (by decide)
  have hp44 : substr "SHA224" (upperStr s) = false := h "SHA224" (by decide)
  have hp45 : substr "SHA-224" (upperStr s) = false := h "SHA-224" (by decide)
  have hp46 : substr "SHA1" (upperStr s) = false := h "SHA1" (by decide)
  have hp47 : substr "SHA-1" (upperStr s) = false := h "SHA-1" (by decide)
  have hp48 : substr "MD5" (upperStr s) = false := h "MD5" (by decide)
  have hp49 : substr "MD4" (upperStr s) = false := h "MD4" (by decide)
  have hp50 : substr "BLAKE3" (upperStr s) = false := h "BLAKE3" (by decide)
  have hp51 : substr "BLAKE2B-512" (upperStr s) = false := h "BLAKE2B-512" (by decide)
  have hp52 : substr "BLAKE2B" (upperStr s) = false := h "BLAKE2B" (by decide)
  have hp53 : substr "BLAKE2S" (upperStr s) = false := h "BLAKE2S" (by decide)
  have hp54 : substr "ASCON" (upperStr s) = false := h "ASCON" (by decide)
  have hp55 : substr "STREEBOG-512" (upperStr s) = false := h "STREEBOG-512" (by decide)
  have hp56 : substr "STREEBOG" (upperStr s) = false := h "STREEBOG" (by decide)
  have hp57 : substr "LSH-512" (upperStr s) = false := h "LSH-512" (by decide)
  have hp58 : substr "LSH" (upperStr s) = false := h "LSH" (by decide)
  have hp59 : substr "WHIRLPOOL" (upperStr s) = false := h "WHIRLPOOL" (by decide)
  have hp60 : substr "SM3" (upperStr s) = false := h "SM3" (by decide)
  have hp61 : substr "RIPEMD" (upperStr s) = false := h "RIPEMD" (by decide)
  have hp62 : substr "KECCAK" (upperStr s) = false := h "KECCAK" (by decide)
  have hp63 : substr "KYBER1024" (upperStr s) = false := h "KYBER1024" (by decide)
  have hp64 : substr "KYBER768" (upperStr s) = false := h "KYBER768" (by decide)
  have hp65 : substr "KYBER512" (upperStr s) = false := h "KYBER512" (by decide)
  have hp66 : substr "KYBER" (upperStr s) = false := h "KYBER" (by decide)
  have hp67 : substr "NTRU" (upperStr s) = false := h "NTRU" (by decide)
  have hp68 : substr "SABER" (upperStr s) = false := h "SABER" (by decide)
  have hp69 : substr "FRODO" (upperStr s) = false := h "FRODO" (by decide)
  have hp70 : substr "ECDHE" (upperStr s) = false := h "ECDHE" (by decide)
  have hp71 : substr "DHE" (upperStr s) = false := h "DHE" (by decide)
  have hp72 : substr "FFDHE8192" (upperStr s) = false := h "FFDHE8192" (by decide)
  have hp73 : substr "FFDHE6144" (upperStr s) = false := h "FFDHE6144" (by decide)
  have hp74 : substr "FFDHE4096" (upperStr s) = false := h "FFDHE4096" (by decide)
  have hp75 : substr "FFDHE3072" (upperStr s) = false := h "FFDHE3072" (by decide)
  have hp76 : substr "FFDHE2048" (upperStr s) = false := h "FFDHE2048" (by decide)
  have hp77 : substr "DH-RSA" (upperStr s) = false := h "DH-RSA" (by decide)
  have hp78 : substr "DH-DSS" (upperStr s) = false := h "DH-DSS" (by decide)
  have hp79 : substr "ANON" (upperStr s) = false := h "ANON" (by decide)
  have hp80 : substr "_RSA_" (upperStr s) = false := h "_RSA_" (by decide)
  have hp81 : substr "TLS_RSA_" (upperStr s) = false := h "TLS_RSA_" (by decide)
  have hp82 : substr "ECDH" (upperStr s) = false := h "ECDH" (by decide)
  have hp83 : substr "_DH_" (upperStr s) = false := h "_DH_" (by decide)
  have hp84 : substr "PSK" (upperStr s) = false := h "PSK" (by decide)
  have hp85 : substr "AES_256_GCM" (upperStr s) = false := h "AES_256_GCM" (by decide)
  have hp86 : substr "AES_192_GCM" (upperStr s) = false := h "AES_192_GCM" (by decide)
  have hp87 : substr "AES_128_GCM" (upperStr s) = false := h "AES_128_GCM" (by decide)
  have hp88 : substr "AES_256_CCM" (upperStr s) = false := h "AES_256_CCM" (by decide)
  have hp89 : substr "AES_128_CCM" (upperStr s) = false := h "AES_128_CCM" (by decide)
  have hp90 : substr "AES_256" (upperStr s) = false := h "AES_256" (by decide)
  have hp91 : substr "AES_192" (upperStr s) = false := h "AES_192" (by decide)
  have hp92 : substr "AES_128" (upperStr s) = false := h "AES_128" (by decide)
  have hp93 : substr "CHACHA20" (upperStr s) = false := h "CHACHA20" (by decide)
  have hp94 : substr "CAMELLIA_256" (upperStr s) = false := h "CAMELLIA_256" (by decide)
  have hp95 : substr "CAMELLIA_128" (upperStr s) = false := h "CAMELLIA_128" (by decide)
  have hp96 : substr "ARIA_256" (upperStr s) = false := h "ARIA_256" (by decide)
  have hp97 : substr "ARIA_128" (upperStr s) = false := h "ARIA_128" (by decide)
  have hp98 : substr "3DES" (upperStr s) = false := h "3DES" (by decide)
  have hp99 : substr "RC4" (upperStr s) = false := h "RC4" (by decide)
  have hp100 : substr "DES" (upperStr s) = false := h "DES" (by decide)
  refine ⟨?_, ?_, ?_, ?_, ?_⟩ <;>
    simp [parse_signature_algorithm, parse_hash_algorithm, parse_algorithm_from_suite,
      extract_key_exchange, hE, hR, hkx,
      hp0, hp1, hp2, hp3, hp4, hp5, hp6, hp7, hp8, hp9, hp10, hp11, hp12, hp13, hp14, hp15, hp16, hp17, hp18, hp19, hp20, hp21, hp22, hp23, hp24, hp25, hp26, hp27, hp28, hp29, hp30, hp31, hp32, hp33, hp34, hp35, hp36, hp37, hp38, hp39, hp40, hp41, hp42, hp43, hp44, hp45, hp46, hp47, hp48, hp49, hp50, hp51, hp52, hp53, hp54, hp55, hp56, hp57, hp58, hp59, hp60, hp61, hp62, hp63, hp64, hp65, hp66, hp67, hp68, hp69, hp70, hp71, hp72, hp73, hp74, hp75, hp76, hp77, hp78, hp79, hp80, hp81, hp82, hp83, hp84, hp85, hp86, hp87, hp88, hp89, hp90, hp91, hp92, hp93, hp94, hp95, hp96, hp97, hp98, hp99, hp100]

/-- C4 witness: the amended theorem applied at the concrete raw name
"QUX" (which matches no known pattern) with no `kxType`. -/
theorem c4_no_match_defaults_witness :
    (∀ p ∈ noMatchPatterns, substr p (upperStr "QUX") = false)
    ∧ (parse_signature_algorithm "QUX" = "RSA"
        ∧ parse_hash_algorithm "QUX" = "SHA256"
        ∧ parse_algorithm_from_suite "QUX" "kex" = none
        ∧ parse_algorithm_from_suite "QUX" "symmetric" = none
        ∧ extract_key_exchange "QUX" none = "Unknown") :=
  ⟨by decide, c4_no_match_defaults "QUX" none (by decide) (by decide)⟩

/-! ## `analyze_tls_configuration` (`tls.py`): typed input shape

The analyzer reads the transformed scan structure through `dict.get`
with defaults; the embedding types those reads directly (absent keys
are `none`).  The report fields embedded are the ones the claims are
about: components, overall score/grade/level, quantum/hybrid readiness,
critical vulnerabilities and the flat audit list; the collaborator-only
sub-analyses (protocol/certificate/security-feature details and the
compliance map) are outside every claim and are not modelled. -/

/-- One entry of `tls_configuration["tls_1.2_cipher_suites"]["suites"]`. -/
structure Suite12E where
  name : Option String := none
  key_exchange : Option String := none
  curve : Option String := none
  curve_bits : Option ℤ := none
deriving DecidableEq, Repr

/-- One entry of `tls_configuration["tls_1.3_cipher_suites"]["suites"]`. -/
structure Suite13E where
  name : Option String := none
  key_exchange : Option String := none
  curve_bits : Option ℤ := none
deriving DecidableEq, Repr

/-- One entry of `signature_algorithms["certificate_signatures"]`. -/
structure CertSigRec where
  signature_algorithm : Option String := none
  hash_algorithm : Option String := none
  public_key_size : Option ℤ := none
  position : Option ℤ := none
deriving DecidableEq, Repr

/-- One entry of `signature_algorithms["handshake_signatures"]`. -/
structure HandshakeSigRec where
  algorithm : Option String := none
deriving DecidableEq, Repr

/-- The parts of the `raw_response` read by `analyze_tls_configuration`. -/
structure AnalyzeInput where
  tls12_suites : List Suite12E := []
  tls13_suites : List Suite13E := []
  cert_signatures : List CertSigRec := []
  handshake_signatures : List HandshakeSigRec := []
  supported_protocols : List String := []
deriving DecidableEq, Repr

/-- Python string truthiness of an optional value (`if not kex_algo`). -/
def pyFalsyStr (o : Option String) : Bool :=
  match o with
  | none => true
  | some "" => true
  | some _ => false

/-- The key-exchange name used for a TLS 1.2 suite: the suite's own
`key_exchange` entry when truthy, else the parse of the suite name;
`none` when the result is still falsy (the score is then omitted). -/
def effectiveKex12 (s : Suite12E) : Option String :=
  let k := if pyFalsyStr s.key_exchange then
      parse_algorithm_from_suite (s.name.getD "") "kex"
    else s.key_exchange
  if pyFalsyStr k then none else k

/-- The kex `AlgorithmScore` contributed by a TLS 1.2 suite, if any. -/
def kexScore12 (pos : ℕ) (s : Suite12E) : Option AlgorithmScore :=
  (effectiveKex12 s).map fun ka =>
    score_individual_algorithm ka "kex" none s.curve s.curve_bits (pos : ℤ)

/-- `key_size = 256 if "256" in sym_algo else (192 if "192" in sym_algo else 128)`. -/
def symmetricKeySize (sym : String) : ℤ :=
  if substr "256" sym then 256 else if substr "192" sym then 192 else 128

/-- The symmetric `AlgorithmScore` contributed by a cipher suite name, if any. -/
def symScoreFromName (pos : ℕ) (name : String) : Option AlgorithmScore :=
  (parse_algorithm_from_suite name "symmetric").map fun sa =>
    score_individual_algorithm sa "symmetric" (some (symmetricKeySize sa)) none none (pos : ℤ)

/-- The kex `AlgorithmScore` contributed by a TLS 1.3 suite, if any
(the group name is passed both as algorithm and as curve). -/
def kexScore13 (pos : ℕ) (s : Suite13E) : Option AlgorithmScore :=
  let kex := s.key_exchange.getD ""
  if kex = "" then none
  else some (score_individual_algorithm kex "kex" none (some kex) s.curve_bits (pos : ℤ))

/-- The signature score of one certificate-signature record. -/
def certSigScore (c : CertSigRec) : AlgorithmScore :=
  score_individual_algorithm (parse_signature_algorithm (c.signature_algorithm.getD ""))
    "signature" (some (c.public_key_size.getD 0)) none none (c.position.getD 0)

/-- The hash score of one certificate-signature record (collected under
the "certificate" category). -/
def certHashScore (c : CertSigRec) : AlgorithmScore :=
  score_individual_algorithm (parse_hash_algorithm (c.hash_algorithm.getD ""))
    "hash" none none none (c.position.getD 0)

/-- The signature score of one handshake-signature record. -/
def handshakeSigScore (idx : ℕ) (h : HandshakeSigRec) : AlgorithmScore :=
  score_individual_algorithm (parse_signature_algorithm (h.algorithm.getD ""))
    "signature" none none none (idx : ℤ)

/-- First-occurrence deduplication (Python dict-key insertion). -/
def pyDedupAux : List String → List String → List String
  | [], _ => []
  | x :: xs, seen => if x ∈ seen then pyDedupAux xs seen else x :: pyDedupAux xs (x :: seen)

/-- Keys of the `version_scores` dict, in insertion order. -/
def pyDedup (l : List String) : List String := pyDedupAux l []

/-- The protocol-category scores: one per distinct supported version
(dict keys of `version_scores`), each scored at position 0. -/
def protocolScores (versions : List String) : List AlgorithmScore :=
  (pyDedup versions).map fun v =>
    score_individual_algorithm v "protocol" none none none 0

/-- The five per-category score lists (`component_data`). -/
structure ComponentData where
  kex : List AlgorithmScore
  signature : List AlgorithmScore
  symmetric : List AlgorithmScore
  certificate : List AlgorithmScore
  protocol : List AlgorithmScore
deriving DecidableEq, Repr

/-- `component_data` as collected by `analyze_tls_configuration`
(suite loops, certificate signatures, handshake signatures, protocol
versions — in source append order). -/
def componentData (i : AnalyzeInput) : ComponentData :=
  { kex := i.tls12_suites.enum.filterMap (fun p => kexScore12 p.1 p.2)
      ++ i.tls13_suites.enum.filterMap (fun p => kexScore13 p.1 p.2)
    signature := i.cert_signatures.map certSigScore
      ++ i.handshake_signatures.enum.map (fun p => handshakeSigScore p.1 p.2)
    symmetric := i.tls12_suites.enum.filterMap (fun p => symScoreFromName p.1 (p.2.name.getD ""))
      ++ i.tls13_suites.enum.filterMap (fun p => symScoreFromName p.1 (p.2.name.getD ""))
    certificate := i.cert_signatures.map certHashScore
    protocol := protocolScores i.supported_protocols }

/-- The flat `all_scores` audit list, in source append order (protocol
scores are not appended to it in the source). -/
def allScores (i : AnalyzeInput) : List AlgorithmScore :=
  (i.tls12_suites.enum.flatMap fun p =>
      (kexScore12 p.1 p.2).toList ++ (symScoreFromName p.1 (p.2.name.getD "")).toList)
    ++ (i.tls13_suites.enum.flatMap fun p =>
      (kexScore13 p.1 p.2).toList ++ (symScoreFromName p.1 (p.2.name.getD "")).toList)
    ++ (i.cert_signatures.flatMap fun c => [certSigScore c, certHashScore c])
    ++ i.handshake_signatures.enum.map (fun p => handshakeSigScore p.1 p.2)

/-- `ComponentAnalysis` (`tls.py` dataclass). -/
structure ComponentAnalysis where
  component_type : String
  algorithms : List AlgorithmScore
  average_score : ℚ
  weighted_average : ℚ
  grade : String
  weight_in_final : ℚ
  best_algorithm : String
  worst_algorithm : String
  pqc_percentage : ℚ
  hybrid_percentage : ℚ
  deprecated_count : ℕ
  quantum_safe_count : ℕ
  pfs_enabled : Bool
deriving DecidableEq, Repr

/-- The aggregation of one non-empty category (`s0 :: rest`), exactly
the loop body of `analyze_tls_configuration`. -/
def mkComponent (comp_type : String) (s0 : AlgorithmScore) (rest : List AlgorithmScore) :
    ComponentAnalysis :=
  let scores := s0 :: rest
  let final_scores := scores.map (·.final_score)
  let weighted_scores := scores.map (·.weighted_score)
  let position_weights := scores.map fun sc => (1 : ℚ) / (1 + (5/100) * (sc.position : ℚ))
  let avg_score := final_scores.sum / (scores.length : ℚ)
  let weighted_avg := min 100 (weighted_scores.sum / position_weights.sum)
  let best_algo :=
    (scores.foldl (fun acc sc => if sc.final_score > acc.final_score then sc else acc) s0).algorithm
  let worst_algo :=
    (scores.foldl (fun acc sc => if sc.final_score < acc.final_score then sc else acc) s0).algorithm
  let pqc_count := scores.countP (·.is_pqc)
  let hybrid_count := scores.countP (·.is_hybrid)
  let pfs_enabled := decide (comp_type = "kex")
    && scores.any fun sc =>
      ["DHE", "ECDHE", "X25519", "X448"].any fun pfs => substr pfs (upperStr sc.algorithm)
  { component_type := comp_type
    algorithms := scores
    average_score := round2 avg_score
    weighted_average := round2 weighted_avg
    grade := score_to_grade weighted_avg
    weight_in_final := (WEIGHTS.lookup comp_type).getD 0
    best_algorithm := best_algo
    worst_algorithm := worst_algo
    pqc_percentage := round2 (((pqc_count : ℚ) / (scores.length : ℚ)) * 100)
    hybrid_percentage := round2 (((hybrid_count : ℚ) / (scores.length : ℚ)) * 100)
    deprecated_count := scores.countP (·.deprecated)
    quantum_safe_count := scores.countP (·.quantum_safe)
    pfs_enabled := pfs_enabled }

/-- The per-category aggregation of `analyze_tls_configuration`;
`none` for an empty category (the `continue`). -/
def buildComponent (comp_type : String) (scores : List AlgorithmScore) :
    Option ComponentAnalysis :=
  match scores with
  | [] => none
  | s0 :: rest => some (mkComponent comp_type s0 rest)

/-- The `components` dict: non-empty categories only, in the fixed
`component_data` insertion order. -/
def buildComponents (cd : ComponentData) : List (String × ComponentAnalysis) :=
  [("kex", cd.kex), ("signature", cd.signature), ("symmetric", cd.symmetric),
   ("certificate", cd.certificate), ("protocol", cd.protocol)].filterMap
    fun p => (buildComponent p.1 p.2).map fun c => (p.1, c)

/-- `overall_score` before its 2-decimal output rounding: the weighted
sum over the present components only. -/
def overallScoreRaw (comps : List (String × ComponentAnalysis)) : ℚ :=
  (comps.map fun p => p.2.weighted_average * p.2.weight_in_final).sum

/-- The PQC-presence-or-strong-averages disjunct of `quantum_ready`
(`tls.py` lines 875-878), with Python truthiness of the absent
component made explicit. -/
def pqcOrStrongCondition (comps : List (String × ComponentAnalysis)) : Bool :=
  let kexC := comps.lookup "kex"
  let sigC := comps.lookup "signature"
  (match kexC with | some c => decide (c.pqc_percentage > 0) | none => false)
    || (match sigC with | some c => decide (c.pqc_percentage > 0) | none => false)
    || ((match kexC with | some c => decide (c.weighted_average ≥ 85) | none => false)
        && (match sigC with | some c => decide (c.weighted_average ≥ 85) | none => false))

/-- `FinalReport` restricted to the claim-relevant fields (see the
section comment above). -/
structure FinalReportE where
  overall_score : ℚ
  overall_grade : String
  security_level : String
  components : List (String × ComponentAnalysis)
  individual_scores : List AlgorithmScore
  quantum_ready : Bool
  hybrid_ready : Bool
  critical_vulnerabilities : List String
deriving DecidableEq, Repr

/-- `analyze_tls_configuration`: aggregation, overall score, readiness
flags and the (never-written) critical-vulnerability list. -/
def analyze_tls_configuration (i : AnalyzeInput) : FinalReportE :=
  let cd := componentData i
  let comps := buildComponents cd
  let overall := overallScoreRaw comps
  let crit : List String := []
  { overall_score := round2 overall
    overall_grade := score_to_grade overall
    security_level := get_security_level overall
    components := comps
    individual_scores := allScores i
    quantum_ready := decide (overall ≥ 80) && pqcOrStrongCondition comps
      && decide (crit.length = 0)
    hybrid_ready := comps.any fun p => decide (p.2.hybrid_percentage > 0)
    critical_vulnerabilities := crit }

/-! ## Claim C2 -/

/-- A concrete input whose score lists are non-empty only for the kex
(scores 5 and 10 at positions 0 and 1, weighted average 7.44) and
signature (score 0) categories. -/
def i1 : AnalyzeInput :=
  { tls12_suites := [{ key_exchange := some "DHE" }, { key_exchange := some "ECDHE" }]
    handshake_signatures := [{ algorithm := some "rsa_pkcs1_sha256" }] }

/-- C2 (counterexample): on `i1` the components map has exactly the
keys "kex" and "signature" with weighted averages 7.44 and 0, but the
report's `overall_score` is 2.6 — the claimed weighted sum is
7.44 * 0.35 + 0 * 0.30 = 2.604, which differs because the source
rounds the overall score to two decimals. -/
theorem c2_counterexample :
    ((analyze_tls_configuration i1).components.map Prod.fst = ["kex", "signature"])
    ∧ ((analyze_tls_configuration i1).components.lookup "kex").map
        ComponentAnalysis.weighted_average = some (186/25)
    ∧ ((analyze_tls_configuration i1).components.lookup "signature").map
        ComponentAnalysis.weighted_average = some 0
    ∧ (analyze_tls_configuration i1).overall_score
        ≠ 186/25 * (35/100) + 0 * (30/100) := by
  with_unfolding_all decide

/-- C2 (amended): for every input whose score lists are non-empty only
for the kex and signature categories, the report's components map
contains exactly the keys "kex" and "signature" (absent categories are
omitted, never zero-filled), and `overall_score` equals the
two-decimal rounding of
`kex.weighted_average * 0.35 + signature.weighted_average * 0.30`,
with no renormalization of the fixed weights. -/
theorem c2_missing_categories (i : AnalyzeInput)
    (hk : (componentData i).kex ≠ []) (hs : (componentData i).signature ≠ [])
    (hsym : (componentData i).symmetric = [])
    (hcert : (componentData i).certificate = [])
    (hproto : (componentData i).protocol = []) :
    ∃ ck cs', (analyze_tls_configuration i).components = [("kex", ck), ("signature", cs')]
      ∧ (analyze_tls_configuration i).overall_score
          = round2 (ck.weighted_average * (35/100) + cs'.weighted_average * (30/100)) := by
  obtain ⟨ka, kl, hkeq⟩ := List.exists_cons_of_ne_nil hk
  obtain ⟨sa, sl, hseq⟩ := List.exists_cons_of_ne_nil hs
  refine ⟨mkComponent "kex" ka kl, mkComponent "signature" sa sl, ?_, ?_⟩
  all_goals
    have hck : buildComponent "kex" ((componentData i).kex)
        = some (mkComponent "kex" ka kl) := by rw [hkeq]; rfl
    have hcs : buildComponent "signature" ((componentData i).signature)
        = some (mkComponent "signature" sa sl) := by rw [hseq]; rfl
    have hsym' : buildComponent "symmetric" ((componentData i).symmetric) = none := by
      rw [hsym]; rfl
    have hcert' : buildComponent "certificate" ((componentData i).certificate) = none := by
      rw [hcert]; rfl
    have hproto' : buildComponent "protocol" ((componentData i).protocol) = none := by
      rw [hproto]; rfl
    have hcomps : buildComponents (componentData i)
        = [("kex", mkComponent "kex" ka kl), ("signature", mkComponent "signature" sa sl)] := by
      simp [buildComponents, hck, hcs, hsym', hcert', hproto']
  · exact hcomps
  · show round2 (overallScoreRaw (buildComponents (componentData i))) = _
    rw [hcomps]
    have hwk : (mkComponent "kex" ka kl).weight_in_final = 35/100 := rfl
    have hws : (mkComponent "signature" sa sl).weight_in_final = 30/100 := rfl
    simp only [overallScoreRaw, List.map_cons, List.map_nil, List.sum_cons, List.sum_nil,
      hwk, hws, add_zero]

/-- C2 witness: the amended theorem applied at `i1`. -/
theorem c2_missing_categories_witness :
    ∃ ck cs', (analyze_tls_configuration i1).components = [("kex", ck), ("signature", cs')]
      ∧ (analyze_tls_configuration i1).overall_score
          = round2 (ck.weighted_average * (35/100) + cs'.weighted_average * (30/100)) :=
  c2_missing_categories i1 (by with_unfolding_all decide) (by with_unfolding_all decide)
    (by with_unfolding_all decide) (by with_unfolding_all decide)
    (by with_unfolding_all decide)

/-! ## Claim C9 -/

/-- C9: every report produced by `analyze_tls_configuration` has an
empty `critical_vulnerabilities` list (no code path appends to it), so
the no-critical-vulnerabilities conjunct of `quantum_ready` is
vacuously true and `quantum_ready` is exactly the overall-score
condition conjoined with the PQC-presence-or-strong-averages
condition. -/
theorem c9_no_critical_vulnerabilities (i : AnalyzeInput) :
    (analyze_tls_configuration i).critical_vulnerabilities = []
    ∧ (analyze_tls_configuration i).quantum_ready
        = (decide (overallScoreRaw (buildComponents (componentData i)) ≥ 80)
            && pqcOrStrongCondition (buildComponents (componentData i))) := by
  refine ⟨rfl, ?_⟩
  show (decide _ && pqcOrStrongCondition _ && decide (List.length ([] : List String) = 0)) = _
  simp

/-! ## Untyped JSON-like values (`crypto_audit.py` raw structures)

The transformer and the deduplication helper traverse raw Python
data (dicts, lists, strings, numbers, booleans, `None`).  Numbers are
modelled as integers: the two functions below treat numbers opaquely,
and no claim depends on float-specific behaviour. -/

inductive Json where
  | null
  | bool (b : Bool)
  | int (n : ℤ)
  | str (s : String)
  | arr (elems : List Json)
  | obj (fields : List (String × Json))

mutual
/-- Structural equality of JSON-like values (Python `==` on the shapes
handled; Python additionally identifies `True` with `1`, a corner no
claim touches). -/
def beqJson : Json → Json → Bool
  | .null, .null => true
  | .bool a, .bool b => a == b
  | .int a, .int b => a == b
  | .str a, .str b => a == b
  | .arr a, .arr b => beqJsonList a b
  | .obj a, .obj b => beqJsonFields a b
  | _, _ => false
def beqJsonList : List Json → List Json → Bool
  | [], [] => true
  | x :: xs, y :: ys => beqJson x y && beqJsonList xs ys
  | _, _ => false
def beqJsonFields : List (String × Json) → List (String × Json) → Bool
  | [], [] => true
  | (k1, v1) :: xs, (k2, v2) :: ys => k1 == k2 && beqJson v1 v2 && beqJsonFields xs ys
  | _, _ => false
end

instance : BEq Json := ⟨beqJson⟩

/-- `isinstance(x, dict)`. -/
def isObjB : Json → Bool
  | .obj _ => true
  | _ => false

/-- `isinstance(x, (str, int, float))` — Python `bool` is an `int`
subclass, so booleans satisfy this check too. -/
def isStrIntFloat : Json → Bool
  | .str _ => true
  | .int _ => true
  | .bool _ => true
  | _ => false

/-- `isinstance(x, (str, int, float, bool, type(None)))`. -/
def isScalarOrNone : Json → Bool
  | .str _ => true
  | .int _ => true
  | .bool _ => true
  | .null => true
  | _ => false

/-- The single-quote character (used by Python `repr` of strings). -/
def sqChar : Char := Char.ofNat 39

/-- Backslash-escape `quote` and backslashes, as Python `repr` does for
printable-ASCII content (exotic escapes are outside the data handled). -/
def pyEscape (quote : Char) (s : String) : String :=
  String.mk (s.data.flatMap fun c =>
    if c = '\\' then ['\\', '\\']
    else if c = quote then ['\\', c]
    else [c])

/-- Python `repr` of a string: single-quoted, or double-quoted when the
content holds a single quote but no double quote. -/
def pyStrRepr (s : String) : String :=
  if s.data.contains sqChar && !(s.data.contains '"') then
    "\"" ++ pyEscape '"' s ++ "\""
  else String.mk [sqChar] ++ pyEscape sqChar s ++ String.mk [sqChar]

mutual
/-- Python `str`/`repr` of a (JSON-like) value, used by `dict_to_tuple`
for lists containing non-scalars. -/
def reprPy : Json → String
  | .null => "None"
  | .bool true => "True"
  | .bool false => "False"
  | .int n => toString n
  | .str s => pyStrRepr s
  | .arr l => "[" ++ reprPyElems l ++ "]"
  | .obj kvs => "\x7b" ++ reprPyFields kvs ++ "\x7d"
def reprPyElems : List Json → String
  | [] => ""
  | [x] => reprPy x
  | x :: y :: rest => reprPy x ++ ", " ++ reprPyElems (y :: rest)
def reprPyFields : List (String × Json) → String
  | [] => ""
  | [(k, v)] => pyStrRepr k ++ ": " ++ reprPy v
  | (k, v) :: y :: rest => pyStrRepr k ++ ": " ++ reprPy v ++ ", " ++ reprPyFields (y :: rest)
end

/-- The canonical form `dict_to_tuple` gives to one dict value: nested
dicts recurse, lists of scalars become tuples, other lists become their
`str(...)`, and every other value is kept as-is. -/
inductive TupVal where
  | scalar (j : Json)
  | tup (items : List (String × TupVal))
  | scalars (elems : List Json)
  | strRepr (s : String)

mutual
/-- Structural equality on canonical tuple values. -/
def beqTupVal : TupVal → TupVal → Bool
  | .scalar a, .scalar b => beqJson a b
  | .tup a, .tup b => beqTupEntries a b
  | .scalars a, .scalars b => beqJsonList a b
  | .strRepr a, .strRepr b => a == b
  | _, _ => false
def beqTupEntries : List (String × TupVal) → List (String × TupVal) → Bool
  | [], [] => true
  | (k1, v1) :: xs, (k2, v2) :: ys => k1 == k2 && beqTupVal v1 v2 && beqTupEntries xs ys
  | _, _ => false
end

instance : BEq TupVal := ⟨beqTupVal⟩

/-- The hashable key `dict_to_tuple` produces: key/value pairs with the
keys sorted. -/
abbrev TupKey := List (String × TupVal)

/-- Insertion into a key-sorted list (keys compared as Python compares
strings, by code points; dict keys are unique so ties cannot arise). -/
def insertByKey (x : String × TupVal) : TupKey → TupKey
  | [] => [x]
  | y :: ys => if x.1 < y.1 then x :: y :: ys else y :: insertByKey x ys

/-- `sorted(d.items())` on the transformed items. -/
def sortByKey : TupKey → TupKey
  | [] => []
  | x :: xs => insertByKey x (sortByKey xs)

mutual
/-- The per-value transformation of `dict_to_tuple`. -/
def dttVal : Json → TupVal
  | .obj kvs => .tup (sortByKey (dttEntries kvs))
  | .arr l => if l.all isScalarOrNone then .scalars l else .strRepr (reprPy (.arr l))
  | j => .scalar j
def dttEntries : List (String × Json) → List (String × TupVal)
  | [] => []
  | (k, v) :: rest => (k, dttVal v) :: dttEntries rest
end

/-- `dict_to_tuple`: canonicalized, key-sorted tuple of a dict.  (The
source sorts the items first and then transforms each value; since the
transformation leaves keys unchanged and dict keys are unique, sorting
after transforming is the same function.) -/
def dict_to_tuple (kvs : List (String × Json)) : TupKey :=
  sortByKey (dttEntries kvs)

/-- Membership of a key in the `seen` set. -/
def seenContains (seen : List TupKey) (k : TupKey) : Bool :=
  seen.any fun s => beqTupEntries s k

/-- First-occurrence deduplication of scalars (`list(dict.fromkeys(l))`,
modelled by value; Python would raise on an unhashable later element
and identifies `True` with `1` — no claim touches either corner). -/
def pyScalarDedup : List Json → List Json → List Json
  | [], _ => []
  | x :: xs, seen =>
    if seen.any (beqJson x) then pyScalarDedup xs seen
    else x :: pyScalarDedup xs (x :: seen)

mutual
/-- `remove_duplicates_from_structure` (`crypto_audit.py`): recursive
structural deduplication of every list in the tree. -/
def remove_duplicates_from_structure : Json → Json
  | .obj kvs => .obj (rdsFields kvs)
  | .arr [] => .arr []
  | .arr (x :: xs) =>
    if isObjB x then .arr (rdsDictLoop (x :: xs) [])
    else if isStrIntFloat x then .arr (pyScalarDedup (x :: xs) [])
    else .arr (rdsEach (x :: xs))
  | j => j
def rdsFields : List (String × Json) → List (String × Json)
  | [] => []
  | (k, v) :: rest => (k, remove_duplicates_from_structure v) :: rdsFields rest
def rdsEach : List Json → List Json
  | [] => []
  | x :: xs => remove_duplicates_from_structure x :: rdsEach xs
/-- The dict-deduplication loop: clean each item, keep it only when it
is a dict whose `dict_to_tuple` key has not been seen. -/
def rdsDictLoop : List Json → List TupKey → List Json
  | [], _ => []
  | x :: xs, seen =>
    match remove_duplicates_from_structure x with
    | .obj kvs =>
      if seenContains seen (dict_to_tuple kvs) then rdsDictLoop xs seen
      else .obj kvs :: rdsDictLoop xs (dict_to_tuple kvs :: seen)
    | _ => rdsDictLoop xs seen
end

/-! ## Claim C10 -/

/-- The fields of a dict value (and `[]` on anything else). -/
def objFields : Json → List (String × Json)
  | .obj kvs => kvs
  | _ => []

/-- First-occurrence deduplication by `dict_to_tuple` key, written as a
standalone pass over an already-cleaned, dicts-only list. -/
def dedupByTupleKey : List Json → List TupKey → List Json
  | [], _ => []
  | x :: xs, seen =>
    if seenContains seen (dict_to_tuple (objFields x)) then dedupByTupleKey xs seen
    else x :: dedupByTupleKey xs (dict_to_tuple (objFields x) :: seen)

/-- The elements of an array value. -/
def arrElems : Json → List Json
  | .arr l => l
  | _ => []

theorem rdsDictLoop_eq_filter_dedup (l : List Json) (seen : List TupKey) :
    rdsDictLoop l seen
      = dedupByTupleKey ((l.map remove_duplicates_from_structure).filter isObjB) seen := by
  induction l generalizing seen with
  | nil => rfl
  | cons x xs ih =>
    cases hx : remove_duplicates_from_structure x with
    | obj kvs =>
      simp only [rdsDictLoop, hx, List.map_cons, List.filter_cons, isObjB, if_true,
        dedupByTupleKey, objFields]
      split
      · exact ih seen
      · rw [ih]
    | null =>
      simp only [rdsDictLoop, hx, List.map_cons, List.filter_cons, isObjB,
        Bool.false_eq_true, if_false]
      exact ih seen
    | bool b =>
      simp only [rdsDictLoop, hx, List.map_cons, List.filter_cons, isObjB,
        Bool.false_eq_true, if_false]
      exact ih seen
    | int n =>
      simp only [rdsDictLoop, hx, List.map_cons, List.filter_cons, isObjB,
        Bool.false_eq_true, if_false]
      exact ih seen
    | str s =>
      simp only [rdsDictLoop, hx, List.map_cons, List.filter_cons, isObjB,
        Bool.false_eq_true, if_false]
      exact ih seen
    | arr a =>
      simp only [rdsDictLoop, hx, List.map_cons, List.filter_cons, isObjB,
        Bool.false_eq_true, if_false]
      exact ih seen

theorem rdsDictLoop_all_obj (l : List Json) (seen : List TupKey) :
    ∀ j ∈ rdsDictLoop l seen, isObjB j = true := by
  induction l generalizing seen with
  | nil => intro j hj; simp [rdsDictLoop] at hj
  | cons x xs ih =>
    intro j hj
    cases hx : remove_duplicates_from_structure x with
    | obj kvs =>
      simp only [rdsDictLoop, hx] at hj
      split at hj
      · exact ih seen j hj
      · rcases List.mem_cons.mp hj with h | h
        · rw [h]; rfl
        · exact ih _ j h
    | null => simp only [rdsDictLoop, hx] at hj; exact ih seen j hj
    | bool b => simp only [rdsDictLoop, hx] at hj; exact ih seen j hj
    | int n => simp only [rdsDictLoop, hx] at hj; exact ih seen j hj
    | str s => simp only [rdsDictLoop, hx] at hj; exact ih seen j hj
    | arr a => simp only [rdsDictLoop, hx] at hj; exact ih seen j hj

/-- C10: for every list whose first element is a dict,
`remove_duplicates_from_structure` keeps only the dict elements: the
result is exactly the recursively-cleaned elements filtered to dicts
and deduplicated by first occurrence of their `dict_to_tuple` key, so
every element of the output is a dict and any non-dict element is
silently removed; concretely, `[{"a": 1}, 2, {"a": 1}]` collapses to
`[{"a": 1}]`. -/
theorem c10_dict_list_keeps_only_dicts (d : List (String × Json)) (rest : List Json) :
    remove_duplicates_from_structure (.arr (.obj d :: rest))
      = .arr (dedupByTupleKey
          (((Json.obj d :: rest).map remove_duplicates_from_structure).filter isObjB) [])
    ∧ (∀ j ∈ arrElems (remove_duplicates_from_structure (.arr (.obj d :: rest))),
        isObjB j = true)
    ∧ remove_duplicates_from_structure
          (.arr [.obj [("a", .int 1)], .int 2, .obj [("a", .int 1)]])
        = .arr [.obj [("a", .int 1)]] := by
  have h1 : remove_duplicates_from_structure (.arr (.obj d :: rest))
      = .arr (rdsDictLoop (.obj d :: rest) []) := by
    simp [remove_duplicates_from_structure, isObjB]
  refine ⟨?_, ?_, ?_⟩
  · rw [h1, rdsDictLoop_eq_filter_dedup]
  · rw [h1]
    intro j hj
    exact rdsDictLoop_all_obj _ _ j hj
  · rfl

/-! ## `transform_scan_result` top (`crypto_audit.py` lines 369-413)

The claims constrain the transformer's empty-input error and its
no-details early return.  The full-details continuation (protocol,
suite, curve and certificate transformation) is represented by an
arbitrary function `cont`: claim C8's properties hold for every
continuation because the source raises its no-data `ValueError` only at
the top of the function (any later failure there is a `KeyError` or is
caught internally), and the no-details branch returns before the
continuation runs. -/

/-- The transformer's error taxonomy: the no-data `ValueError`, a
type/attribute error from reading a malformed record, or whatever the
full-details continuation produced. -/
inductive TErr where
  | noData
  | typeErr
  | cont (msg : String)

/-- Reading the fields of a value that the source uses as a dict
(`.get` on a non-dict raises, modelled as `typeErr`). -/
def asObjFields : Json → Except TErr (List (String × Json))
  | .obj kvs => .ok kvs
  | _ => .error .typeErr

/-- `d.get(k, default)` on known dict fields. -/
def getD (fields : List (String × Json)) (k : String) (dflt : Json) : Json :=
  (fields.lookup k).getD dflt

/-- Python truthiness of a JSON-like value. -/
def pyTruthy : Json → Bool
  | .null => false
  | .bool b => b
  | .int n => decide (n ≠ 0)
  | .str s => decide (s ≠ "")
  | .arr l => !l.isEmpty
  | .obj kvs => !kvs.isEmpty

/-- `str.replace(pat, rep)` on character lists (all occurrences, left
to right; the patterns used are non-empty).  The fuel argument, set to
the list length, only makes the recursion structural: a match consumes
`pat.length ≥ 1` characters and a non-match consumes one. -/
def replaceListAux (pat rep : List Char) : ℕ → List Char → List Char
  | _, [] => []
  | 0, l => l
  | fuel + 1, c :: rest =>
    if pat ≠ [] && pat.isPrefixOf (c :: rest) then
      rep ++ replaceListAux pat rep fuel (rest.drop (pat.length - 1))
    else c :: replaceListAux pat rep fuel rest

/-- `str.replace(pat, rep)` on character lists. -/
def replaceList (pat rep : List Char) (l : List Char) : List Char :=
  replaceListAux pat rep l.length l

/-- Python `s.replace(pat, rep)`. -/
def pyReplace (s pat rep : String) : String :=
  String.mk (replaceList pat.data rep.data s.data)

/-- Python `s.rstrip("/")`. -/
def rstripSlash (s : String) : String :=
  String.mk ((s.data.reverse.dropWhile (fun c => c = '/')).reverse)

/-- `safe_get_endpoint`: first endpoint record, or `{}` when the
endpoint list is falsy (indexing a truthy non-list raises). -/
def safe_get_endpoint (rd : List (String × Json)) : Except TErr Json :=
  let endpoints := getD rd "endpoints" (.arr [])
  if pyTruthy endpoints then
    match endpoints with
    | .arr (e :: _) => .ok e
    | _ => .error .typeErr
  else .ok (.obj [])

/-- The minimal-but-valid structure returned when the first record has
no endpoint details (lines 388-413): empty protocol, suite, curve and
certificate lists, in the source's key insertion order. -/
def minimalStructure (domain : String) (server_ip port : Json) : Json :=
  .obj [("domain", .str domain), ("server_ip", server_ip), ("port", port),
        ("tls_configuration", .obj
          [("supported_protocols", .arr []),
           ("tls_1.2_cipher_suites", .obj
             [("server_preference", .str "disabled"), ("suites", .arr [])]),
           ("tls_1.3_cipher_suites", .obj
             [("server_preference", .str "disabled"), ("suites", .arr [])]),
           ("supported_elliptic_curves", .obj
             [("server_preference", .str "disabled"), ("curves", .arr [])])]),
        ("certificate_chain", .obj
          [("leaf_certificate", .obj []),
           ("intermediate_certificates", .arr []),
           ("root_certificates", .arr []),
           ("alternate_certificates", .arr [])]),
        ("signature_algorithms", .obj
          [("certificate_signatures", .arr []),
           ("handshake_signatures", .arr [])])]

/-- `transform_scan_result`, to the branch the claims constrain: the
empty-input no-data error, the record/endpoint/host reads, and the
no-details early return; the full-details tail is `cont`. -/
def transform_scan_result (cont : Json → Json → Except String Json)
    (data : List Json) : Except TErr Json :=
  match data with
  | [] => .error .noData
  | result_data :: _ =>
    match asObjFields result_data with
    | .error e => .error e
    | .ok rd =>
      match safe_get_endpoint rd with
      | .error e => .error e
      | .ok endpoint =>
        match asObjFields endpoint with
        | .error e => .error e
        | .ok ep =>
          let details := getD ep "details" (.obj [])
          match getD rd "host" (.str "") with
          | .str host =>
            let domain := rstripSlash (pyReplace (pyReplace host "https://" "") "http://" "")
            let server_ip := getD ep "ipAddress" (.str "")
            let port := getD rd "port" (.int 443)
            if pyTruthy details = false then
              .ok (minimalStructure domain server_ip port)
            else
              match cont result_data details with
              | .ok j => .ok j
              | .error msg => .error (.cont msg)
          | _ => .error .typeErr

/-- Lookup along a key path in nested dicts. -/
def jsonPath : Json → List String → Option Json
  | j, [] => some j
  | .obj kvs, k :: ks =>
    match kvs.lookup k with
    | some v => jsonPath v ks
    | none => none
  | _, _ => none

theorem asObjFields_ne_noData (j : Json) : asObjFields j ≠ .error .noData := by
  cases j <;> simp [asObjFields]

theorem safe_get_endpoint_ne_noData (rd : List (String × Json)) :
    safe_get_endpoint rd ≠ .error .noData := by
  simp only [safe_get_endpoint]
  split
  · split <;> simp
  · simp

theorem transform_cons_ne_noData (cont : Json → Json → Except String Json)
    (d : Json) (rest : List Json) :
    transform_scan_result cont (d :: rest) ≠ .error .noData := by
  intro h
  simp only [transform_scan_result] at h
  split at h
  case h_1 e heq =>
    injection h with h2
    rw [h2] at heq
    exact asObjFields_ne_noData d heq
  case h_2 rd heq =>
    split at h
    case h_1 e heq2 =>
      injection h with h2
      rw [h2] at heq2
      exact safe_get_endpoint_ne_noData rd heq2
    case h_2 endpoint heq2 =>
      split at h
      case h_1 e heq3 =>
        injection h with h2
        rw [h2] at heq3
        exact asObjFields_ne_noData endpoint heq3
      case h_2 ep heq3 =>
        split at h
        case h_1 host heq4 =>
          split at h
          · cases h
          · split at h
            · cases h
            · injection h with h2
              cases h2
        all_goals injection h with h2
        all_goals cases h2

/-! ## Claim C8 -/

/-- C8: `transform_scan_result` fails with its no-data error exactly
when the tool-output list is empty (for every continuation of the
full-details branch); and for a non-empty input whose first record has
no endpoint details it does not fail but returns the minimal valid
structure, whose protocol, suite, curve and certificate lists are all
empty. -/
theorem c8_transform_empty_and_minimal (cont : Json → Json → Except String Json)
    (data : List Json) :
    ((transform_scan_result cont data = .error .noData) ↔ data = [])
    ∧ (∀ d rest rd ep host,
        data = d :: rest →
        asObjFields d = .ok rd →
        (safe_get_endpoint rd).bind asObjFields = .ok ep →
        getD rd "host" (.str "") = .str host →
        pyTruthy (getD ep "details" (.obj [])) = false →
        transform_scan_result cont data
          = .ok (minimalStructure
              (rstripSlash (pyReplace (pyReplace host "https://" "") "http://" ""))
              (getD ep "ipAddress" (.str "")) (getD rd "port" (.int 443))))
    ∧ (∀ dom ip port,
        jsonPath (minimalStructure dom ip port)
            ["tls_configuration", "supported_protocols"] = some (.arr [])
        ∧ jsonPath (minimalStructure dom ip port)
            ["tls_configuration", "tls_1.2_cipher_suites", "suites"] = some (.arr [])
        ∧ jsonPath (minimalStructure dom ip port)
            ["tls_configuration", "tls_1.3_cipher_suites", "suites"] = some (.arr [])
        ∧ jsonPath (minimalStructure dom ip port)
            ["tls_configuration", "supported_elliptic_curves", "curves"] = some (.arr [])
        ∧ jsonPath (minimalStructure dom ip port)
            ["certificate_chain", "intermediate_certificates"] = some (.arr [])
        ∧ jsonPath (minimalStructure dom ip port)
            ["certificate_chain", "root_certificates"] = some (.arr [])
        ∧ jsonPath (minimalStructure dom ip port)
            ["signature_algorithms", "certificate_signatures"] = some (.arr [])
        ∧ jsonPath (minimalStructure dom ip port)
            ["signature_algorithms", "handshake_signatures"] = some (.arr [])) := by
  refine ⟨?_, ?_, ?_⟩
  · constructor
    · intro h
      cases data with
      | nil => rfl
      | cons d rest => exact absurd h (transform_cons_ne_noData cont d rest)
    · intro h
      rw [h]
      rfl
  · intro d rest rd ep host hdata hrd hep hhost hdet
    subst hdata
    cases hse : safe_get_endpoint rd with
    | error e =>
      rw [hse] at hep
      simp [Except.bind] at hep
    | ok endpoint =>
      rw [hse] at hep
      simp only [Except.bind] at hep
      simp only [transform_scan_result, hrd, hse, hep, hhost, hdet, if_pos]
  · intro dom ip port
    exact ⟨rfl, rfl, rfl, rfl, rfl, rfl, rfl, rfl⟩

/-- C8 witness: the theorem applied at the one-record input
`[{"host": "https://x.com/"}]` (no endpoint details) with a trivial
continuation. -/
theorem c8_transform_empty_and_minimal_witness :
    transform_scan_result (fun _ _ => .ok .null) [.obj [("host", .str "https://x.com/")]]
      = .ok (minimalStructure "x.com" (.str "") (.int 443)) := by
  have h := (c8_transform_empty_and_minimal (fun _ _ => .ok .null)
      [.obj [("host", .str "https://x.com/")]]).2.1
    (.obj [("host", .str "https://x.com/")]) [] [("host", .str "https://x.com/")] []
    "https://x.com/" rfl rfl rfl rfl rfl
  have hd : rstripSlash (pyReplace (pyReplace "https://x.com/" "https://" "") "http://" "")
      = "x.com" := by decide
  rw [hd] at h
  exact h

/-! ## The `/scan` multi-domain retry orchestrator (`crypto_audit.py`)

The embedding models the multi-domain branch of `scan_domain`:
DNS precheck, up to `max_retries = 3` rounds over the still-failing
domains, and the final response assembled from the `RetryState`.  The
per-domain call (`handle_scan_with_backoff` with the round's cache flag
and timeout, both functions of the round number) is abstracted as
`attempt : String → ℕ → Except String R`; wall-clock timestamps are
abstracted to the round counter; the thread pool's `as_completed`
yields results in a nondeterministic completion order, and the
embedding processes a round's results in submission order — every
property settled here (membership in the failure map, emptiness of the
success list, the round counter) is insensitive to that order. -/

/-- One value of the `failed_domains` dict. -/
structure FailInfo where
  domain : String
  error : String
  last_attempt : ℕ
  first_failed_at : ℕ
deriving DecidableEq, Repr

/-- `RetryState` (in-memory orchestrator bookkeeping); the dict
`failed_domains` is an insertion-ordered association list. -/
structure RetryStateL (R : Type) where
  successful_domains : List R
  failed_domains : List (String × FailInfo)
  current_round : ℕ
  total_rounds : ℕ
  total_processed : ℕ

/-- Python dict assignment `d[k] = v`: replace in place, else append. -/
def upsert (k : String) (v : FailInfo) : List (String × FailInfo) → List (String × FailInfo)
  | [] => [(k, v)]
  | (k0, v0) :: rest => if k0 = k then (k, v) :: rest else (k0, v0) :: upsert k v rest

/-- `RetryState.add_success`. -/
def RetryStateL.add_success {R : Type} (st : RetryStateL R) (r : R) : RetryStateL R :=
  { st with successful_domains := st.successful_domains ++ [r] }

/-- `RetryState.add_failure`: a fresh failure overwrites error and
last-attempt but preserves `first_failed_at`. -/
def RetryStateL.add_failure {R : Type} (st : RetryStateL R) (domain error : String)
    (attempt : ℕ) : RetryStateL R :=
  let first :=
    match st.failed_domains.lookup domain with
    | some info => info.first_failed_at
    | none => attempt
  { st with failed_domains :=
      upsert domain ⟨domain, error, attempt, first⟩ st.failed_domains }

/-- `RetryState.remove_success`: drop the domain from the failure map. -/
def RetryStateL.remove_success {R : Type} (st : RetryStateL R) (domain : String) :
    RetryStateL R :=
  { st with failed_domains := st.failed_domains.filter fun p => !(p.1 == domain) }

/-- One round of the retry loop: each domain of the round is attempted
(with the round number standing for the round's cache flag and timeout
budget) and its success or failure is applied to the state. -/
def runRound {R : Type} (attempt : String → ℕ → Except String R) (round_num : ℕ) :
    List String → RetryStateL R → RetryStateL R
  | [], st => st
  | d :: rest, st =>
    runRound attempt round_num rest
      (match attempt d round_num with
       | .ok r => (st.add_success r).remove_success d
       | .error e => st.add_failure d e round_num)

/-- The `for round_num in range(1, max_retries + 1)` loop: stops when
the fuel (remaining rounds) is spent or no domains remain; otherwise
sets `current_round`, runs the round, and retries the still-failed
domains.  (The source also breaks right after a fully-successful round;
with no effects between that break and the next iteration's top check,
the top check alone gives the same state.) -/
def scanLoop {R : Type} (attempt : String → ℕ → Except String R) :
    ℕ → ℕ → List String → RetryStateL R → RetryStateL R
  | 0, _, _, st => st
  | fuel + 1, round_num, doms, st =>
    if doms.isEmpty then st
    else
      let st1 := runRound attempt round_num doms { st with current_round := round_num }
      scanLoop attempt fuel (round_num + 1) (st1.failed_domains.map Prod.fst) st1

/-- The final response of `/scan` (multi-domain branch). -/
structure FinalResponse (R : Type) where
  total_domains : ℕ
  successful : ℕ
  failed : ℕ
  rounds_completed : ℕ
  successful_scans : List R
  failed_scans : List FailInfo

/-- The multi-domain branch of `scan_domain`: DNS precheck (offline
domains recorded as immediate failures and excluded from every round),
three retry rounds, and the final summary built from the state. -/
def scan_domain_multi {R : Type} (attempt : String → ℕ → Except String R)
    (reachable : String → Bool) (dnsError : String → String)
    (domains : List String) : FinalResponse R :=
  let confirmed_online := domains.filter reachable
  let confirmed_offline := domains.filter fun d => !reachable d
  let st0 : RetryStateL R :=
    { successful_domains := []
      failed_domains := confirmed_offline.map fun d => (d, ⟨d, dnsError d, 0, 0⟩)
      current_round := 0
      total_rounds := 3
      total_processed := 0 }
  let stFinal := scanLoop attempt 3 1 confirmed_online st0
  { total_domains := domains.length
    successful := stFinal.successful_domains.length
    failed := stFinal.failed_domains.length
    rounds_completed := stFinal.current_round
    successful_scans := stFinal.successful_domains
    failed_scans := stFinal.failed_domains.map Prod.snd }

theorem upsert_lookup_self (k : String) (v : FailInfo) (l : List (String × FailInfo)) :
    (upsert k v l).lookup k = some v := by
  induction l with
  | nil => simp [upsert, List.lookup]
  | cons p rest ih =>
    obtain ⟨k0, v0⟩ := p
    by_cases h : k0 = k
    · simp [upsert, h, List.lookup]
    · have hk : (k == k0) = false := beq_eq_false_iff_ne.mpr fun hc => h hc.symm
      simp [upsert, h, List.lookup, hk, ih]

theorem upsert_lookup_isSome (k : String) (v : FailInfo) (l : List (String × FailInfo))
    (x : String) (h : (l.lookup x).isSome = true) :
    ((upsert k v l).lookup x).isSome = true := by
  induction l with
  | nil => simp [List.lookup] at h
  | cons p rest ih =>
    obtain ⟨k0, v0⟩ := p
    by_cases hkk : k0 = k
    · subst hkk
      simp only [upsert, if_pos rfl]
      simp only [List.lookup] at h ⊢
      cases hx : (x == k0)
      · simp only [hx] at h ⊢
        exact h
      · simp only [hx] at h ⊢
        rfl
    · simp only [upsert, if_neg hkk]
      simp only [List.lookup] at h ⊢
      cases hx : (x == k0)
      · simp only [hx] at h ⊢
        exact ih h
      · simp only [hx] at h ⊢
        rfl

theorem upsert_mem (k : String) (v : FailInfo) (l : List (String × FailInfo))
    (p : String × FailInfo) (h : p ∈ upsert k v l) : p ∈ l ∨ p = (k, v) := by
  induction l with
  | nil =>
    simp [upsert] at h
    right
    exact h
  | cons q rest ih =>
    obtain ⟨k0, v0⟩ := q
    by_cases hq : k0 = k
    · simp only [upsert, if_pos hq] at h
      rcases List.mem_cons.mp h with h1 | h1
      · right; exact h1
      · left; exact List.mem_cons_of_mem _ h1
    · simp only [upsert, if_neg hq] at h
      rcases List.mem_cons.mp h with h1 | h1
      · left; rw [h1]; exact List.mem_cons_self _ _
      · rcases ih h1 with h2 | h2
        · left; exact List.mem_cons_of_mem _ h2
        · right; exact h2

theorem lookup_mem {l : List (String × FailInfo)} {k : String} {v : FailInfo}
    (h : l.lookup k = some v) : (k, v) ∈ l := by
  induction l with
  | nil => cases h
  | cons p rest ih =>
    obtain ⟨k0, v0⟩ := p
    simp only [List.lookup] at h
    cases hx : (k == k0)
    · rw [hx] at h
      exact List.mem_cons_of_mem _ (ih h)
    · rw [hx] at h
      injection h with h2
      have hk : k = k0 := beq_iff_eq.mp hx
      rw [hk, ← h2]
      exact List.mem_cons_self _ _

theorem runRound_success_all_fail {R : Type} (attempt : String → ℕ → Except String R)
    (r : ℕ) (hfail : ∀ d rr, ∃ msg, attempt d rr = .error msg) :
    ∀ (doms : List String) (st : RetryStateL R),
      (runRound attempt r doms st).successful_domains = st.successful_domains := by
  intro doms
  induction doms with
  | nil => intro st; rfl
  | cons d rest ih =>
    intro st
    obtain ⟨msg, hm⟩ := hfail d r
    simp only [runRound, hm]
    rw [ih]
    rfl

theorem runRound_current_round {R : Type} (attempt : String → ℕ → Except String R) (r : ℕ) :
    ∀ (doms : List String) (st : RetryStateL R),
      (runRound attempt r doms st).current_round = st.current_round := by
  intro doms
  induction doms with
  | nil => intro st; rfl
  | cons d rest ih =>
    intro st
    cases hm : attempt d r with
    | error e =>
      simp only [runRound, hm]
      rw [ih]
      rfl
    | ok rr =>
      simp only [runRound, hm]
      rw [ih]
      rfl

theorem runRound_failed_isSome {R : Type} (attempt : String → ℕ → Except String R)
    (r : ℕ) (hfail : ∀ d rr, ∃ msg, attempt d rr = .error msg) :
    ∀ (doms : List String) (st : RetryStateL R) (x : String),
      ((st.failed_domains.lookup x).isSome = true ∨ x ∈ doms) →
      ((runRound attempt r doms st).failed_domains.lookup x).isSome = true := by
  intro doms
  induction doms with
  | nil =>
    intro st x h
    rcases h with h | h
    · exact h
    · simp at h
  | cons d rest ih =>
    intro st x h
    obtain ⟨msg, hm⟩ := hfail d r
    simp only [runRound, hm]
    apply ih
    rcases h with h | h
    · left
      simp only [RetryStateL.add_failure]
      exact upsert_lookup_isSome _ _ _ _ h
    · rcases List.mem_cons.mp h with h1 | h1
      · left
        subst h1
        simp only [RetryStateL.add_failure]
        rw [upsert_lookup_self]
        rfl
      · right
        exact h1

theorem runRound_dom_inv {R : Type} (attempt : String → ℕ → Except String R) (r : ℕ) :
    ∀ (doms : List String) (st : RetryStateL R),
      (∀ p ∈ st.failed_domains, p.2.domain = p.1) →
      ∀ p ∈ (runRound attempt r doms st).failed_domains, p.2.domain = p.1 := by
  intro doms
  induction doms with
  | nil => intro st h; exact h
  | cons d rest ih =>
    intro st h
    cases hm : attempt d r with
    | ok rr =>
      simp only [runRound, hm]
      apply ih
      intro p hp
      exact h p (List.mem_filter.mp hp).1
    | error e =>
      simp only [runRound, hm]
      apply ih
      simp only [RetryStateL.add_failure]
      intro p hp
      rcases upsert_mem _ _ _ p hp with h1 | h1
      · exact h p h1
      · rw [h1]

theorem scanLoop_dom_inv {R : Type} (attempt : String → ℕ → Except String R) :
    ∀ (fuel r0 : ℕ) (doms : List String) (st : RetryStateL R),
      (∀ p ∈ st.failed_domains, p.2.domain = p.1) →
      ∀ p ∈ (scanLoop attempt fuel r0 doms st).failed_domains, p.2.domain = p.1 := by
  intro fuel
  induction fuel with
  | zero => intro r0 doms st h; exact h
  | succ n ih =>
    intro r0 doms st h
    by_cases hd : doms.isEmpty
    · simp only [scanLoop, if_pos hd]
      exact h
    · simp only [scanLoop, if_neg hd]
      exact ih _ _ _ (runRound_dom_inv attempt r0 doms _ h)

theorem scanLoop_all_fail {R : Type} (attempt : String → ℕ → Except String R)
    (hfail : ∀ d r, ∃ msg, attempt d r = .error msg) :
    ∀ (fuel r0 : ℕ) (doms : List String) (st : RetryStateL R),
      (scanLoop attempt fuel r0 doms st).successful_domains = st.successful_domains
      ∧ (∀ x, (st.failed_domains.lookup x).isSome = true →
          ((scanLoop attempt fuel r0 doms st).failed_domains.lookup x).isSome = true)
      ∧ (doms ≠ [] → fuel ≠ 0 →
          (∀ d ∈ doms,
            ((scanLoop attempt fuel r0 doms st).failed_domains.lookup d).isSome = true)
          ∧ (scanLoop attempt fuel r0 doms st).current_round = r0 + fuel - 1) := by
  intro fuel
  induction fuel with
  | zero =>
    intro r0 doms st
    exact ⟨rfl, fun x h => h, fun _ h0 => absurd rfl h0⟩
  | succ n ih =>
    intro r0 doms st
    by_cases hd : doms = []
    · subst hd
      refine ⟨rfl, fun x h => h, fun hne _ => absurd rfl hne⟩
    · have hne : doms.isEmpty = false := by simpa [List.isEmpty_iff] using hd
      have hstep : scanLoop attempt (n + 1) r0 doms st
          = scanLoop attempt n (r0 + 1)
              ((runRound attempt r0 doms { st with current_round := r0 }).failed_domains.map
                Prod.fst)
              (runRound attempt r0 doms { st with current_round := r0 }) := by
        simp only [scanLoop, hne, Bool.false_eq_true, if_false]
      obtain ⟨ih1, ih2, ih3⟩ := ih (r0 + 1)
        ((runRound attempt r0 doms { st with current_round := r0 }).failed_domains.map Prod.fst)
        (runRound attempt r0 doms { st with current_round := r0 })
      have hsucc1 : (runRound attempt r0 doms { st with current_round := r0 }).successful_domains
          = st.successful_domains :=
        runRound_success_all_fail attempt r0 hfail doms _
      have hmem1 : ∀ x, ((st.failed_domains.lookup x).isSome = true ∨ x ∈ doms) →
          ((runRound attempt r0 doms
              { st with current_round := r0 }).failed_domains.lookup x).isSome = true :=
        fun x h => runRound_failed_isSome attempt r0 hfail doms _ x h
      obtain ⟨d0, hd0⟩ := List.exists_mem_of_ne_nil doms hd
      have hd0s := hmem1 d0 (Or.inr hd0)
      have hfne : (runRound attempt r0 doms { st with current_round := r0 }).failed_domains
          ≠ [] := by
        intro hnil
        rw [hnil] at hd0s
        simp [List.lookup] at hd0s
      have hdoms2 :
          (runRound attempt r0 doms { st with current_round := r0 }).failed_domains.map
            Prod.fst ≠ [] := by
        intro hnil
        exact hfne (List.map_eq_nil_iff.mp hnil)
      refine ⟨?_, ?_, ?_⟩
      · rw [hstep, ih1, hsucc1]
      · intro x h
        rw [hstep]
        exact ih2 x (hmem1 x (Or.inl h))
      · intro _ _
        constructor
        · intro d hdm
          rw [hstep]
          exact ih2 d (hmem1 d (Or.inr hdm))
        · rw [hstep]
          cases n with
          | zero =>
            show (runRound attempt r0 doms { st with current_round := r0 }).current_round
              = r0 + 1 - 1
            rw [runRound_current_round]
            simp
          | succ m =>
            rw [(ih3 hdoms2 (by omega)).2]
            omega

/-! ## Claim C6 -/

/-- C6: for a multi-domain request whose domains all pass the DNS
precheck and whose every scan attempt fails, the retry loop completes
in exactly the outer round limit of 3 rounds, the final failure map
contains every requested domain, and the success list is empty. -/
theorem c6_retry_termination {R : Type} (attempt : String → ℕ → Except String R)
    (reachable : String → Bool) (dnsError : String → String) (domains : List String)
    (hlen : 2 ≤ domains.length)
    (hreach : ∀ d ∈ domains, reachable d = true)
    (hfail : ∀ d r, ∃ msg, attempt d r = .error msg) :
    (scan_domain_multi attempt reachable dnsError domains).rounds_completed = 3
    ∧ (scan_domain_multi attempt reachable dnsError domains).successful_scans = []
    ∧ ∀ d ∈ domains,
        ∃ info ∈ (scan_domain_multi attempt reachable dnsError domains).failed_scans,
          info.domain = d := by
  have honline : domains.filter reachable = domains := List.filter_eq_self.mpr hreach
  have hoffline : domains.filter (fun d => !reachable d) = [] := by
    rw [List.filter_eq_nil_iff]
    intro a ha
    simp [hreach a ha]
  have hdne : domains ≠ [] := by
    intro h
    rw [h] at hlen
    simp at hlen
  have hresp : scan_domain_multi attempt reachable dnsError domains
      = { total_domains := domains.length
          successful := (scanLoop attempt 3 1 domains
              ⟨[], [], 0, 3, 0⟩).successful_domains.length
          failed := (scanLoop attempt 3 1 domains ⟨[], [], 0, 3, 0⟩).failed_domains.length
          rounds_completed := (scanLoop attempt 3 1 domains ⟨[], [], 0, 3, 0⟩).current_round
          successful_scans := (scanLoop attempt 3 1 domains ⟨[], [], 0, 3, 0⟩).successful_domains
          failed_scans := (scanLoop attempt 3 1 domains
              ⟨[], [], 0, 3, 0⟩).failed_domains.map Prod.snd } := by
    simp only [scan_domain_multi, honline, hoffline, List.map_nil]
  obtain ⟨k1, k2, k3⟩ := scanLoop_all_fail attempt hfail 3 1 domains ⟨[], [], 0, 3, 0⟩
  obtain ⟨k3a, k3b⟩ := k3 hdne (by omega)
  refine ⟨?_, ?_, ?_⟩
  · rw [hresp]
    exact k3b
  · rw [hresp]
    exact k1
  · intro d hd
    have hlk := k3a d hd
    obtain ⟨info, hinfo⟩ := Option.isSome_iff_exists.mp hlk
    have hmem : (d, info) ∈ (scanLoop attempt 3 1 domains
        (⟨[], [], 0, 3, 0⟩ : RetryStateL R)).failed_domains := lookup_mem hinfo
    have hdominv := scanLoop_dom_inv attempt 3 1 domains ⟨[], [], 0, 3, 0⟩
      (by intro p hp; simp at hp) (d, info) hmem
    refine ⟨info, ?_, hdominv⟩
    rw [hresp]
    exact List.mem_map.mpr ⟨(d, info), hmem, rfl⟩

/-- C6 witness: the theorem applied to the two-domain batch
`["a.com", "b.com"]` with every domain reachable and every attempt
failing. -/
theorem c6_retry_termination_witness :
    (scan_domain_multi (R := Unit) (fun _ _ => .error "boom") (fun _ => true) (fun _ => "dns")
        ["a.com", "b.com"]).rounds_completed = 3
    ∧ (scan_domain_multi (R := Unit) (fun _ _ => .error "boom") (fun _ => true) (fun _ => "dns")
        ["a.com", "b.com"]).successful_scans = []
    ∧ ∀ d ∈ ["a.com", "b.com"],
        ∃ info ∈ (scan_domain_multi (R := Unit) (fun _ _ => .error "boom") (fun _ => true)
            (fun _ => "dns") ["a.com", "b.com"]).failed_scans,
          info.domain = d :=
  c6_retry_termination (fun _ _ => .error "boom") (fun _ => true) (fun _ => "dns")
    ["a.com", "b.com"] (by decide) (fun _ _ => rfl) (fun _ _ => ⟨"boom", rfl⟩)

/-! ## Per-domain execution stack (`crypto_audit.py`) -/

/-- The outcome of one external `ssllabs-scan` process invocation. -/
inductive ToolOutcome where
  | ok (output : List Json)
  | timeoutExpired
  | processError (stderr : String)
  | jsonDecodeError (msg : String)
  | fileNotFound

/-- A raised Python exception as seen by this stack: FastAPI's
`HTTPException`, the service's `RateLimitException`, or any other
exception. -/
inductive PyExc where
  | http (status : ℕ) (detail : String)
  | rateLimit (msg : String)
  | other (msg : String)

/-- `str(e)` as interpolated by the blanket handler of
`process_single_domain` (only non-`HTTPException` values reach it). -/
def excStr : PyExc → String
  | .http _ detail => detail
  | .rateLimit msg => msg
  | .other msg => msg

/-- `rate_limit_indicators` of `run_ssllabs_cli`. -/
def rate_limit_indicators : List String :=
  ["429", "rate limit", "too many requests", "assessment failed: HTTP 429",
   "service overloaded", "throttled", "try again later"]

/-- `run_ssllabs_cli`: maps one tool invocation's outcome to parsed
output or a raised exception; a nonzero exit whose stderr (or "Scan
failed" when stderr is empty) holds a rate-limit marker raises
`RateLimitException`, every other failure an `HTTPException`. -/
def run_ssllabs_cli (tool : ToolOutcome) (domain : String) (_use_cache : Bool)
    (timeout : ℕ) : Except PyExc (List Json) :=
  match tool with
  | .ok output => .ok output
  | .timeoutExpired =>
    .error (.http 504 ("Scan timed out for " ++ domain ++ " after " ++ toString timeout ++ "s"))
  | .processError stderr =>
    let error_msg := if stderr = "" then "Scan failed" else stderr
    if rate_limit_indicators.any (fun ind => substr ind (lowerStr error_msg)) then
      .error (.rateLimit ("Rate limited for " ++ domain))
    else .error (.http 500 ("Scan failed for " ++ domain ++ ": " ++ error_msg))
  | .jsonDecodeError msg => .error (.http 500 ("Invalid JSON from scan: " ++ msg))
  | .fileNotFound => .error (.http 500 "ssllabs-scan not found")

/-- `process_single_domain`: DNS check, tool invocation, then the
transform/analysis pipeline (abstracted as `rest`), all inside the
handler that re-raises `HTTPException`s and converts every other
exception — `RateLimitException` included — into `HTTPException(500)`
with detail `"Error processing {domain}: {str(e)}"`. -/
def process_single_domain {R : Type} (tool : ToolOutcome) (reachable : Bool)
    (dnsErrorMsg : String) (rest : List Json → Except PyExc R)
    (domain : String) (use_cache : Bool) (_attempt : ℕ) (timeout : ℕ) : Except PyExc R :=
  let body : Except PyExc R :=
    if reachable = false then .error (.http 503 dnsErrorMsg)
    else
      match run_ssllabs_cli tool domain use_cache timeout with
      | .error e => .error e
      | .ok raw => rest raw
  match body with
  | .ok r => .ok r
  | .error (.http s dt) => .error (.http s dt)
  | .error e => .error (.http 500 ("Error processing " ++ domain ++ ": " ++ excStr e))

/-- The `for retry in range(max_backoff_retries)` loop of
`handle_scan_with_backoff`, with `max_backoff_retries = 3`: retries
(after a `(2 ** retry) * 5`-second sleep, recorded in the returned
list) only on `RateLimitException`, surfaces HTTP 429 when the retries
are exhausted, and re-raises every other exception unchanged; the
fuel-0 case is the unreachable fall-through `HTTPException(500)` after
the loop. -/
def handleBackoffLoop {R : Type} (attemptResult : ℕ → Except PyExc R) (domain : String) :
    ℕ → ℕ → List ℕ → Except PyExc R × List ℕ
  | 0, _, sleeps =>
    (.error (.http 500 ("Unexpected error in backoff handler for " ++ domain)), sleeps)
  | remaining + 1, retry, sleeps =>
    match attemptResult retry with
    | .ok r => (.ok r, sleeps)
    | .error (.rateLimit _) =>
      if retry < 3 - 1 then
        handleBackoffLoop attemptResult domain remaining (retry + 1) (sleeps ++ [2 ^ retry * 5])
      else (.error (.http 429 ("Rate limit exceeded for " ++ domain)), sleeps)
    | .error e => (.error e, sleeps)

/-- `handle_scan_with_backoff`: the loop started at retry 0 with no
sleeps performed; the per-attempt body is indexed by the retry counter
(the external tool may answer differently on each call). -/
def handle_scan_with_backoff {R : Type} (attemptResult : ℕ → Except PyExc R)
    (domain : String) : Except PyExc R × List ℕ :=
  handleBackoffLoop attemptResult domain 3 0 []

/-- Per-domain execution as the `/scan` rounds invoke it:
`handle_scan_with_backoff` wrapped around `process_single_domain`. -/
def per_domain_execution {R : Type} (tool : ℕ → ToolOutcome) (reachable : Bool)
    (dnsErrorMsg : String) (rest : List Json → Except PyExc R)
    (domain : String) (use_cache : Bool) (attempt timeout : ℕ) : Except PyExc R × List ℕ :=
  handle_scan_with_backoff
    (fun retry => process_single_domain (tool retry) reachable dnsErrorMsg rest
      domain use_cache attempt timeout)
    domain

/-! ## Claim C7 -/

/-- C7 (code bug): when the external tool reports rate limiting (exit
with stderr "assessment failed: HTTP 429") for a reachable domain,
`run_ssllabs_cli` raises `RateLimitException`, but
`process_single_domain`'s blanket `except Exception` converts it into
`HTTPException(500)`, which `handle_scan_with_backoff` re-raises
immediately: for every downstream pipeline `rest` the per-domain
execution performs no back-off sleep, never retries, and surfaces
HTTP 500 — not the claimed inner retries with exponential back-off and
final HTTP 429. -/
theorem c7_rate_limit_converted_to_500 {R : Type} (rest : List Json → Except PyExc R)
    (attempt timeout : ℕ) (use_cache : Bool) :
    per_domain_execution (fun _ => .processError "assessment failed: HTTP 429") true
        "" rest "example.com" use_cache attempt timeout
      = (.error (.http 500 "Error processing example.com: Rate limited for example.com"),
         []) := by
  rfl
